import Mathlib

/-!
Verification development for the sharesight ledger importer.

The definitions below are a shallow embedding of the reconciliation engine in
src/sharesight_csv_importer.py (class SharesightCsvImporter) and, in the
namespace Legacy, of the earlier revision in src/import-sharesight.py
(class SharesightCsvImport).  Python dictionaries are embedded as association
lists with last-wins lookup (pyGet) and append update (pySet); Python strings
are Lean String values, with case conversion and ordering re-implemented over
the underlying character lists so that every definition evaluates inside the
kernel; CSV numeric cells that the source passes through float are embedded
as Rat; a missing cell or a None value is embedded as the empty string or an
Option, following the truthiness tests the source performs on it.

The remote service is not part of this repository.  Its responses are
supplied by an Env record; a response is embedded as the parsed JSON pieces
the engine inspects: status code, errors dictionary, and the optional
trade.holding_id.  A strict API call that raises (response.raise_for_status
in src/sharesight_api_client.py) is embedded as a halt of kind exn.
-/

/-- Python str.lower over the character list, as used by the lookup keys. -/
def pyLower (s : String) : String := String.mk (s.data.map Char.toLower)

/-- Python str.upper over the character list. -/
def pyUpper (s : String) : String := String.mk (s.data.map Char.toUpper)

/-- Lexicographic character-list comparison used to embed the chronological
comparison of ISO yyyy-mm-dd date strings (Python compares parsed dates;
for valid ISO dates the string order is the same order). -/
def strLeGo : List Char → List Char → Bool
  | [], _ => true
  | _ :: _, [] => false
  | a :: as, b :: bs => if a = b then strLeGo as bs else decide (a.val ≤ b.val)

/-- String comparison wrapper for date filtering. -/
def strLe (a b : String) : Bool := strLeGo a.data b.data

/-- Python dict read, dict.get(k): the last binding for a key wins. -/
def pyGet {α : Type} (m : List (String × α)) (k : String) : Option α :=
  m.reverse.lookup k

/-- Python dict write, d[k] = v. -/
def pySet {α : Type} (m : List (String × α)) (k : String) (v : α) :
    List (String × α) := m ++ [(k, v)]

/-- Python truthiness of an optional int command line argument. -/
def pyTruthyNat : Option Nat → Bool
  | some n => n ≠ 0
  | none => false

/-- Python truthiness of an optional date argument (a date object is always
truthy, only None is falsy). -/
def pyTruthyDate : Option String → Bool
  | some _ => true
  | none => false

/-- Python f-string rendering of a value that may be None. -/
def pyStr : Option String → String
  | some s => s
  | none => "None"

/-- One parsed ledger CSV record, the fields of src/sharesight_csv_importer.py
together with the extra columns read by src/import-sharesight.py.  Cells the
source feeds to float are Rat; cells only passed through to request bodies
are String, with the empty string standing for a missing or empty cell
exactly where the source tests truthiness or compares against the empty
string. -/
structure DataRow where
  unique_identifier : String
  transaction_type : String
  transaction_date : String
  symbol : String
  market : String
  quantity : Rat
  price : String
  amount : Rat
  amount_currency : String
  amount_in_gbp : String
  amount_in_aud : String
  amount_in_instrument_currency : Rat
  cash_account : String
  goes_ex_on : String
  description : String
  instrument_currency : String
  brokerage_in_gbp : String
  brokerage_in_aud : String
  exchange_rate_gbp : String
  exchange_rate_aud : String
  accrued_income : Rat
  accrued_income_in_instrument_currency : Rat
  accrued_income_in_gbp : String
  accrued_income_in_aud : String
  symbol_name : String
  instrument_country_code : String
  symbol_type : String
  brokerage : String
  brokerage_currency_code : String
  comments : String
deriving DecidableEq, Repr

/-- Default record so concrete test rows only need to spell the fields a
scenario uses; every field is the empty cell or zero. -/
def emptyRow : DataRow :=
  { unique_identifier := "", transaction_type := "", transaction_date := ""
    symbol := "", market := "", quantity := 0, price := "", amount := 0
    amount_currency := "", amount_in_gbp := "", amount_in_aud := ""
    amount_in_instrument_currency := 0, cash_account := "", goes_ex_on := ""
    description := "", instrument_currency := "", brokerage_in_gbp := ""
    brokerage_in_aud := "", exchange_rate_gbp := "", exchange_rate_aud := ""
    accrued_income := 0, accrued_income_in_instrument_currency := 0
    accrued_income_in_gbp := "", accrued_income_in_aud := ""
    symbol_name := "", instrument_country_code := "", symbol_type := ""
    brokerage := "", brokerage_currency_code := "", comments := "" }

/-- Transaction type to operation class table of SharesightCsvImporter. -/
def TRANSACTION_TYPE_TO_API_ENDPOINT : List (String × String) :=
  [("DISTRIBUTION", "payout"),
   ("DIVIDEND", "payout"),
   ("BUY", "trade"),
   ("SELL", "trade"),
   ("SPLIT", "trade"),
   ("BONUS", "trade"),
   ("CONSOLD", "trade"),
   ("CANCEL", "trade"),
   ("MERGE_CANCEL", "merge"),
   ("MERGE_BUY", "merge"),
   ("CAPITAL_RETURN", "trade"),
   ("OPENING_BALANCE", "trade"),
   ("ADJUST_COST_BASE", "trade"),
   ("CAPITAL_CALL", "trade"),
   ("DEPOSIT", "cash"),
   ("WITHDRAWAL", "cash"),
   ("INTEREST_PAYMENT", "cash"),
   ("INTEREST_CHARGED", "cash"),
   ("FEE", "cash"),
   ("FEE_REIMBURSEMENT", "cash")]

/-- Transaction types the importer never posts to a cash account. -/
def NON_CASH_TX_TYPES : List String :=
  ["OPENING_BALANCE", "CANCEL", "MERGE_BUY", "MERGE_CANCEL", "CONSOLD",
   "BONUS", "SPLIT"]

/-- Holding lookup key, get_portfolio_holdings_lookup_key of the source:
the portfolio id, market and symbol joined and lowercased. -/
def get_portfolio_holdings_lookup_key (portfolio_id symbol market : String) :
    String := pyLower (portfolio_id ++ "-" ++ market ++ "-" ++ symbol)

/-- Payout de-duplication key, get_portfolio_payouts_lookup_key of the
source. -/
def get_portfolio_payouts_lookup_key (portfolio_id holding_id paid_on : String) :
    String := pyLower (portfolio_id ++ "-" ++ holding_id ++ "-" ++ paid_on)

/-- Removal of the trailing portfolio qualifier from a symbol: the Python
slice symbol[:-len(suffix)] guarded by symbol.endswith(suffix). -/
def remove_portfolio_qualifier_from_symbol (symbol portfolio_id : String) :
    String :=
  if (("-" ++ portfolio_id).data).isSuffixOf symbol.data then
    String.mk (symbol.data.take (symbol.data.length - ("-" ++ portfolio_id).data.length))
  else symbol

/-- Qualified symbol key for custom instruments: rows on market other get
the portfolio id appended to the symbol. -/
def get_symbol_key_with_portfolio_qualifier_for_custom_instruments
    (row : DataRow) (portfolio_id : String) : String :=
  if pyLower row.market = "other" then row.symbol ++ "-" ++ portfolio_id
  else row.symbol

/-- Cash account lookup key: currency joined to the account name, with the
name Account substituted when the cell is falsy. -/
def get_cash_account_lookup_key (cash_account_currency cash_account_name : String) :
    String :=
  cash_account_currency ++ "-" ++
    (if cash_account_name = "" then "Account" else cash_account_name)

/-- Logical account name recovered from the remote display name by dropping
the trailing parenthesised currency, if present. -/
def get_cash_account_name_from_sharesight_cash_account
    (cash_account_name cash_account_currency : String) : String :=
  if ((" (" ++ cash_account_currency ++ ")").data).isSuffixOf cash_account_name.data then
    String.mk (cash_account_name.data.take
      (cash_account_name.data.length - (" (" ++ cash_account_currency ++ ")").data.length))
  else cash_account_name

/-- Trade creation request body built by process_trade of
SharesightCsvImporter.  Fields the source sets to the empty string when a
branch does not apply keep the empty string; capital_return_value, a float
in the source, is an Option Rat with none for the empty string. -/
structure TradePayload where
  unique_identifier : String
  transaction_type : String
  transaction_date : String
  portfolio_id : String
  symbol : String
  market : String
  quantity : Rat
  price : String
  brokerage : String
  brokerage_currency : String
  exchange_rate : String
  cost_base : String
  capital_return_value : Option Rat
  paid_on : String
  comments : String
deriving DecidableEq, Repr

/-- Payout creation request body built by process_payout. -/
structure PayoutPayload where
  portfolio_id : String
  holding_id : String
  paid_on : String
  amount : Rat
  goes_ex_on : String
  currency_code : String
  banked_amount : String
  comments : String
deriving DecidableEq, Repr

/-- Cash account transaction request body built by process_cash. -/
structure CashPayload where
  date_time : String
  description : String
  amount : Rat
  type_name : String
  foreign_identifier : String
deriving DecidableEq, Repr

/-- Holding merge request body built by process_merge. -/
structure MergePayload where
  holding_id : String
  merge_date : String
  quantity : Rat
  symbol : String
  market : String
  comments : String
deriving DecidableEq, Repr

/-- Custom investment request body built by
create_or_update_custom_instrument. -/
structure CustomInvestmentData where
  portfolio_id : String
  code : String
  name : String
  country_code : String
  currency_code : String
  investment_type : String
deriving DecidableEq, Repr

/-- Remote response as the engine reads it: the status code, the errors
dictionary of the decoded JSON body (each key with its list of messages,
empty when the body has no errors dictionary), and the holding_id carried
under the trade key when present.  trade is none when the body has no trade
object; some none when a trade object lacks a holding_id. -/
structure ApiResponse where
  status_code : Nat
  errors : List (String × List String)
  trade : Option (Option String)
deriving DecidableEq, Repr

/-- Remote call issued by the engine, recorded in order of issue. -/
inductive ApiCall where
  | createTrade (p : TradePayload)
  | createPayout (p : PayoutPayload)
  | createCash (cash_account_id : Option String) (p : CashPayload)
  | createHoldingMerge (portfolio_id : String) (p : MergePayload)
  | getHolding (holding_id : Option String)
  | getPortfolios
  | getCashAccounts (portfolio_id : String)
  | createPortfolio (name country_code : String)
  | createCashAccount (portfolio_id full_name currency : String)
  | deleteAllCashAccountTransactions (portfolio_id : String)
  | deleteAllHoldings (portfolio_id : String)
  | getCustomInvestments (portfolio_id : String)
  | createCustomInvestment (d : CustomInvestmentData)
  | updateCustomInvestment (id : String) (d : CustomInvestmentData)
  | deleteCustomInvestment (id : String)
  | getPrices (custom_investment_id date : String)
  | createPrice (custom_investment_id : String) (price : Rat) (date : String)
  | putPrice (price_id : String) (price : Rat) (date : String)
  | getPayouts (portfolio_id : String)
  | getPortfolioHoldings (portfolio_id : String)
  | resyncCashAccount (cash_account_id : String)
  | getValuation (portfolio_name date : String)
deriving DecidableEq, Repr

/-- Console output classes the engine produces for one processed step. -/
inductive Outcome where
  | success
  | skippedDuplicate
  | errorLogged
  | warnNegativeQuantity
  | warnNonCashWithAmount
  | warnCurrencyOverridden
  | skippedPayoutExists
  | errorMissingCashAccount
  | errorMissingHolding
  | errorMergeMissingHolding
  | errorBadMergePair
  | errorUnknownType
  | errorResetWithFilter
  | errorInstrumentCurrencyMismatch
  | infoNoHoldingIdButNoError
  | infoHoldingSaved
  | infoLookupHolding
  | infoMissingHoldingId
deriving DecidableEq, Repr

/-- Reason a run stops early: an uncaught Python exception, or an explicit
return None from process_transactions. -/
inductive Halt where
  | exn
  | ret
deriving DecidableEq, Repr

/-- Observable effect of a piece of the engine: the remote calls it issued in
order, the console outcomes it printed, and whether it halted the run. -/
structure Eff where
  calls : List ApiCall
  outs : List Outcome
  halt : Option Halt
deriving DecidableEq, Repr

/-- Effect with no calls, no output and no halt. -/
def emptyEff : Eff := { calls := [], outs := [], halt := none }

/-- Sequencing of effects: a halt discards everything that would follow,
matching exception propagation and early return in the source. -/
def Eff.seq (a b : Eff) : Eff :=
  if a.halt.isSome then a
  else { calls := a.calls ++ b.calls, outs := a.outs ++ b.outs, halt := b.halt }

/-- Environment: the remote responses and external library results the run
consumes.  Modelled from the spec: the remote API is an external collaborator
(spec section 6); each field is the decoded response the engine would read.
dayBefore stands for the datetime library computing the previous calendar
day of an ISO date.  openingBalanceRows stands for the rows the generator of
spec section 4.2 would inject, and is consumed only by import_file. -/
structure Env where
  tryCreateTrade : TradePayload → ApiResponse
  tryCreatePayout : PayoutPayload → ApiResponse
  tryCreateCash : Option String → CashPayload → ApiResponse
  tryCreateHoldingMerge : String → MergePayload → ApiResponse
  getHolding : Option String → Option String
  portfolios : List (String × String × String)
  cashAccountsOf : String → List (String × String × String)
  payoutsOf : String → List (String × String × String)
  holdingsOf : String → List (String × String × String)
  customInvestmentsOf : String → List (String × String × CustomInvestmentData)
  createPortfolioId : String → String
  createCashAccountId : String → String → String
  createCustomInvestmentCurrency : CustomInvestmentData → Option String
  updateCustomInvestmentCurrency : String → CustomInvestmentData → Option String
  pricesOn : String → String → List (String × Rat)
  dayBefore : String → String
  openingBalanceRows : String → String → List DataRow

/-- Errors list derived from a response by get_errors of the source: empty on
status 200; the errors dictionary otherwise; a one-element placeholder list
(whose lookup of any field name fails, like the singleton Python list built
from the error key) when a non-200 body carries no errors dictionary. -/
def getErrorsList (r : ApiResponse) : List (String × List String) :=
  if r.status_code = 200 then []
  else if r.errors ≠ [] then r.errors
  else [("", [])]

/-- Duplicate trade signature recognised by print_response_status. -/
def isDuplicateTx (errors : List (String × List String)) : Bool :=
  match errors.lookup "unique_identifier" with
  | some (m :: _) =>
      m = "A trade with this unique_identifier already exists in the portfolio."
  | _ => false

/-- Duplicate cash transaction signature recognised by
print_response_status. -/
def isDuplicateCash (errors : List (String × List String)) : Bool :=
  match errors.lookup "foreign_identifier" with
  | some (m :: _) => m = "has already been taken"
  | _ => false

/-- Outcome printed by print_response_status of SharesightCsvImporter. -/
def print_response_status (r : ApiResponse) : Outcome :=
  let errors := getErrorsList r
  if errors ≠ [] then
    if isDuplicateTx errors || isDuplicateCash errors then .skippedDuplicate
    else .errorLogged
  else .success

/-- Cash transaction request body built by process_cash from a row. -/
def mkCashPayload (row : DataRow) : CashPayload :=
  { date_time := row.transaction_date
    description := row.unique_identifier ++ " " ++ row.description
    amount := row.amount
    type_name := row.transaction_type
    foreign_identifier := row.unique_identifier }

/-- Embedding of process_cash of SharesightCsvImporter: a non-cash row is
skipped, with a warning when it carries a nonzero amount unless it is an
opening balance; otherwise the cash transaction is posted, after an error
line when no cash account id resolved. -/
def process_cash (env : Env) (cash_account_id : Option String) (row : DataRow) :
    Eff :=
  if row.transaction_type ∈ NON_CASH_TX_TYPES then
    if row.amount ≠ 0 ∧ row.transaction_type ≠ "OPENING_BALANCE" then
      { calls := [], outs := [.warnNonCashWithAmount], halt := none }
    else emptyEff
  else
    let missing : List Outcome :=
      if cash_account_id = none then [.errorMissingCashAccount] else []
    let p := mkCashPayload row
    { calls := [.createCash cash_account_id p]
      outs := missing ++ [print_response_status (env.tryCreateCash cash_account_id p)]
      halt := none }

/-- Payout creation request body built by process_payout from a row and the
holding id. -/
def mkPayoutPayload (portfolio_id country_code : String) (row : DataRow)
    (existing_holding_id : String) : PayoutPayload :=
  { portfolio_id := portfolio_id
    holding_id := existing_holding_id
    paid_on := row.transaction_date
    amount := row.amount
    goes_ex_on := row.goes_ex_on
    currency_code := row.amount_currency
    banked_amount :=
      if country_code = "GB" then row.amount_in_gbp
      else if country_code = "AU" then row.amount_in_aud else "??"
    comments := row.unique_identifier ++ " " ++ row.description }

/-- Embedding of process_payout of SharesightCsvImporter: the payout is
created only when the de-duplication key is absent from the pre-loaded payout
index; the cash posting is attempted in either case. -/
def process_payout (env : Env) (portfolio_id country_code : String)
    (cash_account_id : Option String) (row : DataRow)
    (existing_holding_id : String) (payouts : List (String × String)) : Eff :=
  let existing := pyGet payouts
    (get_portfolio_payouts_lookup_key portfolio_id existing_holding_id
      row.transaction_date)
  let headEff : Eff :=
    if existing = none then
      let p := mkPayoutPayload portfolio_id country_code row existing_holding_id
      { calls := [.createPayout p]
        outs := [print_response_status (env.tryCreatePayout p)]
        halt := none }
    else { calls := [], outs := [.skippedPayoutExists], halt := none }
  Eff.seq headEff (process_cash env cash_account_id row)

/-- Holding merge request body built by process_merge from the buy leg. -/
def mkMergePayload (existing_holding_id : String) (row : DataRow) :
    MergePayload :=
  { holding_id := existing_holding_id
    merge_date := if row.goes_ex_on ≠ "" then row.goes_ex_on
                  else row.transaction_date
    quantity := row.quantity
    symbol := row.symbol
    market := pyUpper row.market
    comments := "none" }

/-- Embedding of process_merge of SharesightCsvImporter. -/
def process_merge (env : Env) (portfolio_id existing_holding_id : String)
    (row : DataRow) : Eff :=
  let p := mkMergePayload existing_holding_id row
  { calls := [.createHoldingMerge portfolio_id p]
    outs := [print_response_status (env.tryCreateHoldingMerge portfolio_id p)]
    halt := none }

/-- Trade creation request body built by process_trade of
SharesightCsvImporter, with the GB and AU currency column selection and the
double question mark placeholder of the source for any other country
code. -/
def mkTradePayload (portfolio_id country_code : String) (row : DataRow) :
    TradePayload :=
  let is_ccr := row.transaction_type = "CAPITAL_CALL" ∨
    row.transaction_type = "CAPITAL_RETURN"
  { unique_identifier := row.unique_identifier
    transaction_type := row.transaction_type
    transaction_date := row.transaction_date
    portfolio_id := portfolio_id
    symbol := row.symbol
    market := row.market
    quantity := row.quantity
    price := row.price
    brokerage := if country_code = "GB" then row.brokerage_in_gbp
                 else if country_code = "AU" then row.brokerage_in_aud else "??"
    brokerage_currency := if country_code = "GB" then "GBP"
                          else if country_code = "AU" then "AUD" else "??"
    exchange_rate := if country_code = "GB" then row.exchange_rate_gbp
                     else if country_code = "AU" then row.exchange_rate_aud
                     else "??"
    cost_base := if row.transaction_type = "OPENING_BALANCE" then
                   (if country_code = "GB" then row.amount_in_gbp
                    else if country_code = "AU" then row.amount_in_aud else "??")
                 else ""
    capital_return_value := if is_ccr then
                              some |row.amount_in_instrument_currency|
                            else none
    paid_on := if is_ccr then
                 (if row.goes_ex_on ≠ "" then row.goes_ex_on
                  else row.transaction_date)
               else ""
    comments := row.unique_identifier ++ " " ++ row.description }

/-- Secondary synthetic row for a nonzero accrued income component: the
source copies the row, pops the four accrued columns (reads of a popped
column go through get with a zero or empty default, so the copy carries zero
and empty there), derives the unique identifier, and moves the accrued
amounts into the amount columns. -/
def mkAccruedIncomeRow (row : DataRow) : DataRow :=
  { row with
    unique_identifier := row.unique_identifier ++ "-accrued_income"
    amount := row.accrued_income
    amount_in_instrument_currency := row.accrued_income_in_instrument_currency
    amount_in_gbp := row.accrued_income_in_gbp
    amount_in_aud := row.accrued_income_in_aud
    accrued_income := 0
    accrued_income_in_instrument_currency := 0
    accrued_income_in_gbp := ""
    accrued_income_in_aud := "" }

/-- Holding currency verification step of process_trade: skipped for custom
instruments; otherwise the holding is fetched through a strict request, so a
failed lookup (none) raises, and a currency mismatch is logged. -/
def currency_check_step (env : Env) (row : DataRow)
    (holding_id : Option String) : Option (List ApiCall × List Outcome) :=
  if pyLower row.market ≠ "other" then
    match env.getHolding holding_id with
    | none => none
    | some cur =>
        some ([.getHolding holding_id],
          if cur ≠ row.instrument_currency then
            [.errorInstrumentCurrencyMismatch]
          else [])
  else some ([], [])

/-- Embedding of process_trade of SharesightCsvImporter, structurally
recursive on an explicit call-stack depth.  The trade is submitted; when the
market is not other, the engine fetches the currency of the returned holding
id through a strict request, which raises when the lookup fails (in
particular the source passes a None holding id after any rejected create);
then the cash effect is posted and a nonzero accrued income component on a
SELL or BUY is split into a synthetic payout or a recursive CAPITAL_CALL
trade.  The depth-zero case of the recursive branch is unreachable from
process_trade below, because the synthetic row carries a zero accrued income
(the source pops the accrued columns); process_trade_aux_depth_stable proves
every positive depth gives the same result.  The returned option is the
holding id, none when the response carried none or the step raised. -/
def process_trade_aux (env : Env) (portfolio_id country_code : String)
    (cash_account_id : Option String) :
    Nat → DataRow → List (String × String) → Eff × Option String
  | depth, row, payouts =>
    let warns : List Outcome :=
      if row.quantity < 0 then [.warnNegativeQuantity] else []
    let p := mkTradePayload portfolio_id country_code row
    let response := env.tryCreateTrade p
    let errors := getErrorsList response
    let out1 := print_response_status response
    let holding_id : Option String := response.trade.bind (fun t => t)
    let noId : List Outcome :=
      if holding_id = none ∧ errors = [] then [.infoNoHoldingIdButNoError]
      else []
    match currency_check_step env row holding_id with
    | none =>
        ({ calls := [.createTrade p, .getHolding holding_id]
           outs := warns ++ [out1] ++ noId
           halt := some .exn }, none)
    | some (curCalls, curOuts) =>
        let cashEff := process_cash env cash_account_id row
        let splitEff : Eff :=
          if row.accrued_income ≠ 0 ∧ (row.transaction_type = "SELL" ∨
              row.transaction_type = "BUY") then
            if row.transaction_type = "SELL" then
              process_payout env portfolio_id country_code cash_account_id
                { mkAccruedIncomeRow row with
                  goes_ex_on := env.dayBefore row.transaction_date }
                (pyStr holding_id) payouts
            else
              match depth with
              | Nat.succ d =>
                  (process_trade_aux env portfolio_id country_code
                    cash_account_id d
                    { mkAccruedIncomeRow row with
                      transaction_type := "CAPITAL_CALL" } payouts).1
              | 0 => emptyEff
          else emptyEff
        ({ calls := [.createTrade p] ++ curCalls ++ cashEff.calls ++ splitEff.calls
           outs := warns ++ [out1] ++ noId ++ curOuts ++ cashEff.outs ++ splitEff.outs
           halt := splitEff.halt }, holding_id)

/-- Entry point for process_trade: one level of accrued-income recursion is
available, which is all the source can consume. -/
def process_trade (env : Env) (portfolio_id country_code : String)
    (cash_account_id : Option String) (row : DataRow)
    (payouts : List (String × String)) : Eff × Option String :=
  process_trade_aux env portfolio_id country_code cash_account_id 1 row payouts

/-- Rows without an accrued income component never take the recursive branch,
so the depth argument is irrelevant for them. -/
theorem process_trade_aux_zero_accrued (env : Env)
    (portfolio_id country_code : String) (cash_account_id : Option String)
    (n m : Nat) (row : DataRow) (payouts : List (String × String))
    (h : row.accrued_income = 0) :
    process_trade_aux env portfolio_id country_code cash_account_id n row payouts =
      process_trade_aux env portfolio_id country_code cash_account_id m row payouts := by
  rw [process_trade_aux.eq_def, process_trade_aux.eq_def]
  simp only [h, ne_eq, not_true_eq_false, false_and, if_false]

/-- Every positive recursion depth gives the same result as depth one, so the
depth bound chosen in process_trade does not influence the embedding. -/
theorem process_trade_aux_depth_stable (env : Env)
    (portfolio_id country_code : String) (cash_account_id : Option String)
    (n m : Nat) (row : DataRow) (payouts : List (String × String)) :
    process_trade_aux env portfolio_id country_code cash_account_id (n + 1) row payouts =
      process_trade_aux env portfolio_id country_code cash_account_id (m + 1) row payouts := by
  rw [process_trade_aux.eq_def, process_trade_aux.eq_def]
  have hz := process_trade_aux_zero_accrued env portfolio_id country_code
    cash_account_id n m
    { mkAccruedIncomeRow row with transaction_type := "CAPITAL_CALL" } payouts
    (by simp [mkAccruedIncomeRow])
  simp only [hz]

/-- One row of the reader together with its 1-based physical line number
and whether it came from the file (injected opening balance rows are chained
ahead of the file rows and are not subject to the line or date filters). -/
structure RowRec where
  lineNum : Nat
  fromFile : Bool
  row : DataRow
deriving DecidableEq, Repr

/-- Context threaded through the row loop of process_transactions. -/
structure LoopCtx where
  env : Env
  portfolio_id : String
  country_code : String
  cash_accounts : List (String × String)
  min_date : Option String
  min_line : Option Nat
  max_line : Option Nat

/-- Filter applied lazily to file rows: the line window when the bounds are
truthy and the minimum date cutoff, which keeps rows on or after the
cutoff. -/
def passesFilters (ctx : LoopCtx) (rr : RowRec) : Bool :=
  if rr.fromFile then
    (match ctx.min_line with
     | some n => if n ≠ 0 then decide (n ≤ rr.lineNum) else true
     | none => true) &&
    (match ctx.max_line with
     | some n => if n ≠ 0 then decide (rr.lineNum ≤ n) else true
     | none => true) &&
    (match ctx.min_date with
     | some d => strLe d rr.row.transaction_date
     | none => true)
  else true

/-- Row with its symbol replaced by the qualified symbol key, as the loop
does before dispatching. -/
def qualifiedRow (portfolio_id : String) (r : DataRow) : DataRow :=
  { r with symbol := get_symbol_key_with_portfolio_qualifier_for_custom_instruments r portfolio_id }

/-- Qualification only rewrites the symbol; the transaction type is kept. -/
@[simp] theorem qualifiedRow_transaction_type (portfolio_id : String) (r : DataRow) :
    (qualifiedRow portfolio_id r).transaction_type = r.transaction_type := rfl

/-- Trade branch of one loop iteration: run process_trade; when it did not
raise, record a returned holding id in the holdings index with an info line,
or log the lookup of an existing holding.  The returned effect carries the
halt of process_trade, so the loop sequencing drops everything after a
raise. -/
def trade_row_step (env : Env) (pid cc : String)
    (cash_account_id : Option String) (row : DataRow)
    (payouts holdings : List (String × String)) (holding_key : String) :
    Eff × List (String × String) :=
  let step := process_trade env pid cc cash_account_id row payouts
  if step.1.halt.isSome then (step.1, holdings)
  else
    match step.2 with
    | some h =>
        ({ step.1 with outs := step.1.outs ++ [.infoHoldingSaved] },
         pySet holdings holding_key h)
    | none =>
        let missOuts : List Outcome :=
          if pyGet holdings holding_key = none then
            [.infoLookupHolding, .infoMissingHoldingId]
          else [.infoLookupHolding]
        ({ step.1 with outs := step.1.outs ++ missOuts }, holdings)

/-- Payout branch of one loop iteration: a row without a resolvable holding
id is a hard error that returns from the whole pass (the returned effect is
halted, so the loop sequencing drops the remaining rows); otherwise
process_payout runs. -/
def payout_row_step (env : Env) (pid cc : String)
    (cash_account_id : Option String) (row : DataRow)
    (payouts holdings : List (String × String)) (holding_key : String) : Eff :=
  match pyGet holdings holding_key with
  | none => { calls := [], outs := [.errorMissingHolding], halt := some .ret }
  | some h => process_payout env pid cc cash_account_id row h payouts

/-- Merge branch of one loop iteration, given the consumed lookahead row:
a lookahead that is not a merge leg prints the structural error and raises
(the source then calls a backup method the csv reader does not have);
otherwise the cancel and buy legs are assigned, the cancel-side holding is
resolved (a failed resolution returns from the pass), and the merge is
submitted for the buy leg. -/
def merge_row_step (env : Env) (pid : String)
    (holdings : List (String × String)) (row row2 : DataRow) : Eff :=
  if row2.transaction_type ≠ "MERGE_BUY" ∧
      row2.transaction_type ≠ "MERGE_CANCEL" then
    { calls := [], outs := [.errorBadMergePair], halt := some .exn }
  else
    let cancel_row :=
      if row2.transaction_type = "MERGE_CANCEL" then row2 else row
    let buy_row :=
      if row2.transaction_type = "MERGE_CANCEL" then row else row2
    let cancel_key := get_portfolio_holdings_lookup_key pid cancel_row.symbol
      cancel_row.market
    match pyGet holdings cancel_key with
    | none => { calls := [], outs := [.errorMergeMissingHolding]
                halt := some .ret }
    | some h => process_merge env pid h buy_row

/-- Cash account id of one loop iteration: the lookup key built from the
row currency and account name, read from the cash accounts mapping. -/
def rowCashAccountId (ctx : LoopCtx) (row : DataRow) : Option String :=
  pyGet ctx.cash_accounts
    (get_cash_account_lookup_key row.amount_currency row.cash_account)

/-- Holding index key of one loop iteration. -/
def rowHoldingKey (ctx : LoopCtx) (row : DataRow) : String :=
  get_portfolio_holdings_lookup_key ctx.portfolio_id row.symbol row.market

/-- One loop iteration for the single-row operation classes of the source
match statement: a trade row runs the trade branch and may extend the
holdings index, a payout row runs the payout branch, a cash row posts
through process_cash, and an unmapped transaction type yields the
classification error effect that returns from the whole pass.  The merge
class, the one case that consumes a second row, is dispatched in
processRows itself; the cases of the source match are mutually exclusive
literal comparisons, so splitting them this way reorders nothing. -/
def nonmerge_row_step (ctx : LoopCtx)
    (payouts holdings : List (String × String)) (rr : RowRec) :
    Eff × List (String × String) :=
  let row := qualifiedRow ctx.portfolio_id rr.row
  let api_endpoint_type := pyGet TRANSACTION_TYPE_TO_API_ENDPOINT
    row.transaction_type
  if api_endpoint_type = some "trade" then
    trade_row_step ctx.env ctx.portfolio_id ctx.country_code
      (rowCashAccountId ctx row) row payouts holdings (rowHoldingKey ctx row)
  else if api_endpoint_type = some "payout" then
    (payout_row_step ctx.env ctx.portfolio_id ctx.country_code
      (rowCashAccountId ctx row) row payouts holdings (rowHoldingKey ctx row),
     holdings)
  else if api_endpoint_type = some "cash" then
    (process_cash ctx.env (rowCashAccountId ctx row) row, holdings)
  else
    ({ calls := [], outs := [.errorUnknownType], halt := some .ret }, holdings)

/-- Embedding of the row loop of process_transactions: filter, then qualify
the symbol and dispatch on the operation class.  A merge row consumes
exactly the next reader row (raising StopIteration at end of input); every
other class is one iteration of nonmerge_row_step.  A halted branch effect
makes the sequencing drop all remaining rows, which matches the early
returns and uncaught exceptions of the source. -/
def processRows (ctx : LoopCtx) (payouts : List (String × String)) :
    List (String × String) → List RowRec → Eff
  | _, [] => emptyEff
  | holdings, rr :: rest =>
    if passesFilters ctx rr = false then processRows ctx payouts holdings rest
    else if pyGet TRANSACTION_TYPE_TO_API_ENDPOINT
        (qualifiedRow ctx.portfolio_id rr.row).transaction_type =
        some "merge" then
      match rest with
      | [] => { calls := [], outs := [], halt := some .exn }
      | rr2 :: rest2 =>
          Eff.seq (merge_row_step ctx.env ctx.portfolio_id holdings
            (qualifiedRow ctx.portfolio_id rr.row)
            (qualifiedRow ctx.portfolio_id rr2.row))
            (processRows ctx payouts holdings rest2)
    else
      let step := nonmerge_row_step ctx payouts holdings rr
      Eff.seq step.1 (processRows ctx payouts step.2 rest)

/-- A filtered-out row is skipped and the loop continues. -/
theorem processRows_cons_filtered (ctx : LoopCtx)
    (payouts holdings : List (String × String)) (rr : RowRec)
    (rest : List RowRec) (hfilt : passesFilters ctx rr = false) :
    processRows ctx payouts holdings (rr :: rest) =
      processRows ctx payouts holdings rest := by
  rw [processRows.eq_def]
  simp [hfilt]

/-- A merge-class row consumes the next row as its pair and the loop
continues on the rows after the pair. -/
theorem processRows_cons_merge (ctx : LoopCtx)
    (payouts holdings : List (String × String)) (rr rr2 : RowRec)
    (rest2 : List RowRec) (hfilt : passesFilters ctx rr = true)
    (hlook : pyGet TRANSACTION_TYPE_TO_API_ENDPOINT
      rr.row.transaction_type = some "merge") :
    processRows ctx payouts holdings (rr :: rr2 :: rest2) =
      Eff.seq (merge_row_step ctx.env ctx.portfolio_id holdings
        (qualifiedRow ctx.portfolio_id rr.row)
        (qualifiedRow ctx.portfolio_id rr2.row))
        (processRows ctx payouts holdings rest2) := by
  rw [processRows.eq_def]
  simp [hfilt, hlook]

/-- A merge-class row at the end of the file has no pair: the lookahead
raises StopIteration. -/
theorem processRows_cons_merge_nil (ctx : LoopCtx)
    (payouts holdings : List (String × String)) (rr : RowRec)
    (hfilt : passesFilters ctx rr = true)
    (hlook : pyGet TRANSACTION_TYPE_TO_API_ENDPOINT
      rr.row.transaction_type = some "merge") :
    processRows ctx payouts holdings [rr] =
      { calls := [], outs := [], halt := some Halt.exn } := by
  rw [processRows.eq_def]
  simp [hfilt, hlook]

/-- Any row that is not merge-classified is one nonmerge_row_step iteration
followed by the loop on the remaining rows with the updated holdings. -/
theorem processRows_cons_nonmerge (ctx : LoopCtx)
    (payouts holdings : List (String × String)) (rr : RowRec)
    (rest : List RowRec) (hfilt : passesFilters ctx rr = true)
    (hlook : pyGet TRANSACTION_TYPE_TO_API_ENDPOINT
      rr.row.transaction_type ≠ some "merge") :
    processRows ctx payouts holdings (rr :: rest) =
      Eff.seq (nonmerge_row_step ctx payouts holdings rr).1
        (processRows ctx payouts (nonmerge_row_step ctx payouts holdings rr).2
          rest) := by
  rw [processRows.eq_def]
  simp [hfilt, hlook]

/-- Portfolio lookup by name, get_portfolio_by_name of the source: the issued
calls, the portfolio id, the cash account lookup (remote display names folded
back to logical keys) and the currency code. -/
def get_portfolio_by_name (env : Env) (portfolio_name : String) :
    List ApiCall × Option String × List (String × String) × Option String :=
  match env.portfolios.find? (fun t => t.1 = portfolio_name) with
  | some t =>
      let pid := t.2.1
      let accounts := env.cashAccountsOf pid
      let lookup := accounts.map (fun a =>
        (get_cash_account_lookup_key a.2.1
          (get_cash_account_name_from_sharesight_cash_account a.1 a.2.1),
         a.2.2))
      ([.getPortfolios, .getCashAccounts pid], some pid, lookup, some t.2.2)
  | none => ([.getPortfolios], none, [], none)

/-- Cash account creation pass, create_cash_accounts of the source: one
create call per distinct pair from the file scan, building the local
lookup. -/
def create_cash_accounts (env : Env) (portfolio_id : String)
    (cash_accounts_in_file : List (String × String)) :
    List ApiCall × List (String × String) :=
  cash_accounts_in_file.foldl (fun acc pr =>
    let full_name := (if pr.2 = "" then "Account" else pr.2) ++ " (" ++ pr.1 ++ ")"
    let cid := env.createCashAccountId portfolio_id full_name
    (acc.1 ++ [.createCashAccount portfolio_id full_name pr.1],
     pySet acc.2 (get_cash_account_lookup_key pr.1 pr.2) cid)) ([], [])

/-- Portfolio setup, get_or_create_portfolio of the source: reuse an existing
portfolio, or create it with its cash accounts; a requested reset deletes the
cash account transactions and all holdings before recreating the cash
accounts. -/
def get_or_create_portfolio (env : Env) (portfolio_name country_code : String)
    (cash_accounts_in_file : List (String × String)) (delete_existing : Bool) :
    List ApiCall × String × List (String × String) :=
  let found := get_portfolio_by_name env portfolio_name
  match found.2.1 with
  | none =>
      let pid := env.createPortfolioId portfolio_name
      let created := create_cash_accounts env pid cash_accounts_in_file
      (found.1 ++ [.createPortfolio portfolio_name country_code] ++ created.1,
       pid, created.2)
  | some pid =>
      if delete_existing then
        let created := create_cash_accounts env pid cash_accounts_in_file
        (found.1 ++ [.deleteAllCashAccountTransactions pid, .deleteAllHoldings pid]
           ++ created.1, pid, created.2)
      else (found.1, pid, found.2.2.1)

/-- Distinct custom instrument definition collected from one file row, with
the symbol already carrying the portfolio qualifier. -/
structure CustomInstrumentRow where
  symbol : String
  symbol_name : String
  instrument_country_code : String
  instrument_currency : String
  symbol_type : String
deriving DecidableEq, Repr

/-- File scan for custom instrument definitions: rows on market other,
de-duplicated (the source builds a set; insertion order stands in for the
arbitrary set order, which no later step depends on). -/
def get_unique_custom_instruments_in_file (rows : List DataRow)
    (portfolio_id : String) : List CustomInstrumentRow :=
  ((rows.filter (fun r => pyLower r.market = "other")).map (fun r =>
    ({ symbol := get_symbol_key_with_portfolio_qualifier_for_custom_instruments
         r portfolio_id
       symbol_name := r.symbol_name
       instrument_country_code := r.instrument_country_code
       instrument_currency := r.instrument_currency
       symbol_type := r.symbol_type } : CustomInstrumentRow))).dedup

/-- File scan for distinct cash account pairs. -/
def get_unique_cash_accounts_in_file (rows : List DataRow) :
    List (String × String) :=
  (rows.map (fun r => (r.amount_currency, r.cash_account))).dedup

/-- Embedding of create_or_update_custom_instrument: recreate when the
country code or type changed, rename in place when only the name changed,
create when absent, and warn when the remote echoes a different currency. -/
def create_or_update_custom_instrument (env : Env) (portfolio_id : String)
    (existing : Option (String × String × CustomInvestmentData))
    (ci : CustomInstrumentRow) : Eff :=
  let d : CustomInvestmentData :=
    { portfolio_id := portfolio_id
      code := ci.symbol
      name := ci.symbol_name ++ " (AUTO)"
      country_code := ci.instrument_country_code
      currency_code := ci.instrument_currency
      investment_type := if ci.symbol_type ≠ "" then ci.symbol_type
                         else "MANAGED_FUND" }
  let step : List ApiCall × Option (Option String) :=
    match existing with
    | some ex =>
        if ex.2.2.country_code ≠ d.country_code ∨
            ex.2.2.investment_type ≠ d.investment_type then
          ([.deleteCustomInvestment ex.1, .createCustomInvestment d],
           some (env.createCustomInvestmentCurrency d))
        else if ex.2.2.name ≠ d.name then
          ([.updateCustomInvestment ex.1 d],
           some (env.updateCustomInvestmentCurrency ex.1 d))
        else ([], none)
    | none => ([.createCustomInvestment d],
               some (env.createCustomInvestmentCurrency d))
  let warn : List Outcome :=
    match step.2 with
    | some echoed => if echoed ≠ some d.currency_code then
                       [.warnCurrencyOverridden]
                     else []
    | none => []
  { calls := step.1, outs := warn, halt := none }

/-- Embedding of create_custom_instruments: list the existing remote custom
investments once, then create or update each scanned definition. -/
def create_custom_instruments (env : Env) (portfolio_id : String)
    (instruments : List CustomInstrumentRow) : Eff :=
  let existing := env.customInvestmentsOf portfolio_id
  instruments.foldl (fun acc ci =>
    let ex := existing.reverse.find? (fun e => e.2.1 = ci.symbol)
    Eff.seq acc (create_or_update_custom_instrument env portfolio_id ex ci))
    { calls := [.getCustomInvestments portfolio_id], outs := [], halt := none }

/-- One row of the prices file. -/
structure PriceRow where
  symbol : String
  date : String
  price : Rat
deriving DecidableEq, Repr

/-- Embedding of process_prices: resolve the custom investment by unqualified
symbol, then create the price when the date has none, replace it when the
stored value differs, and do nothing when it matches. -/
def process_prices (env : Env) (price_rows : List PriceRow)
    (portfolio_id : String) : Eff :=
  let investments := env.customInvestmentsOf portfolio_id
  let lookup := investments.map (fun c =>
    (remove_portfolio_qualifier_from_symbol c.2.1 portfolio_id, c.1))
  price_rows.foldl (fun acc pr =>
    Eff.seq acc
      (match pyGet lookup pr.symbol with
       | some cid =>
           let existing := env.pricesOn cid pr.date
           let act : Eff :=
             match existing.head? with
             | some ep =>
                 if ep.2 ≠ pr.price then
                   { calls := [.putPrice ep.1 pr.price pr.date], outs := []
                     halt := none }
                 else emptyEff
             | none =>
                 { calls := [.createPrice cid pr.price pr.date], outs := []
                   halt := none }
           Eff.seq { calls := [.getPrices cid pr.date], outs := [], halt := none }
             act
       | none => emptyEff))
    { calls := [.getCustomInvestments portfolio_id], outs := [], halt := none }

/-- Embedding of process_transactions: scan the file, set up the portfolio,
cash accounts and custom instruments, optionally sync prices, pre-load the
payout and holding indexes, run the row loop over the injected rows chained
ahead of the file rows, and finally resync each distinct cash account
touched (skipped when the loop halted, because both the early return and an
exception leave the method before the sync). -/
def process_transactions (env : Env) (file_rows : List RowRec)
    (portfolio_name country_code : String) (delete_existing : Bool)
    (min_date : Option String) (min_line max_line : Option Nat)
    (injected_opening_balances : List DataRow)
    (prices_file : Option (List PriceRow)) : Eff :=
  let cash_accounts_in_file :=
    get_unique_cash_accounts_in_file (file_rows.map (fun rr => rr.row))
  let setup := get_or_create_portfolio env portfolio_name country_code
    cash_accounts_in_file delete_existing
  let pid := setup.2.1
  let cash_accounts := setup.2.2
  let instruments := get_unique_custom_instruments_in_file
    (file_rows.map (fun rr => rr.row)) pid
  let e1 := create_custom_instruments env pid instruments
  let e2 := match prices_file with
            | some prs => process_prices env prs pid
            | none => emptyEff
  let payouts := (env.payoutsOf pid).map (fun p =>
    (get_portfolio_payouts_lookup_key pid p.1 p.2.1, p.2.2))
  let holdings := (env.holdingsOf pid).map (fun h =>
    (get_portfolio_holdings_lookup_key pid h.1 h.2.1, h.2.2))
  let ctx : LoopCtx :=
    { env := env, portfolio_id := pid, country_code := country_code
      cash_accounts := cash_accounts, min_date := min_date
      min_line := min_line, max_line := max_line }
  let rows := (injected_opening_balances.map (fun r =>
    ({ lineNum := 0, fromFile := false, row := r } : RowRec))) ++ file_rows
  let loopEff := processRows ctx payouts holdings rows
  let resync : Eff :=
    { calls := (((cash_accounts.map Prod.snd).dedup).filter (fun c => c ≠ "")).map
        (fun c => .resyncCashAccount c)
      outs := [], halt := none }
  Eff.seq { calls := setup.1, outs := [], halt := none } <|
    Eff.seq e1 <| Eff.seq e2 <|
      Eff.seq { calls := [.getPayouts pid, .getPortfolioHoldings pid]
                outs := [], halt := none } <|
        Eff.seq loopEff resync

/-- Embedding of import_file: the mutual exclusion guard between a requested
reset and any of the range or date filters is evaluated before anything
else; then the optional opening balance generation reads the source
portfolio (its remote reads are collapsed to the valuation call, and the
generated rows are supplied by the environment, both modelled from the spec
because the generator only feeds rows into the loop) and forces the minimum
date to the valuation date; finally process_transactions runs. -/
def import_file (env : Env) (file_rows : List RowRec)
    (portfolio_name country_code : String) (delete_existing : Bool)
    (min_date : Option String) (opening_balance_on : Option String)
    (opening_balance_from : Option String) (min_line max_line : Option Nat)
    (prices_file : Option (List PriceRow)) : Eff :=
  if (pyTruthyDate min_date || pyTruthyNat min_line || pyTruthyNat max_line)
      && delete_existing then
    { calls := [], outs := [.errorResetWithFilter], halt := some .ret }
  else
    match opening_balance_on, opening_balance_from with
    | some ob_on, some ob_from =>
        if ob_from ≠ "" then
          let found := get_portfolio_by_name env ob_from
          let gen : Eff :=
            { calls := found.1 ++ [.getValuation ob_from ob_on]
              outs := [], halt := none }
          Eff.seq gen (process_transactions env file_rows portfolio_name
            country_code delete_existing (some ob_on) min_line max_line
            (env.openingBalanceRows ob_from ob_on) prices_file)
        else
          process_transactions env file_rows portfolio_name country_code
            delete_existing min_date min_line max_line [] prices_file
    | _, _ =>
        process_transactions env file_rows portfolio_name country_code
          delete_existing min_date min_line max_line [] prices_file

namespace Legacy

/-- Trade creation request body built by process_trade of the earlier
SharesightCsvImport revision in src/import-sharesight.py.  cost_base and
capital_return_value, set to the empty string when their branch does not
apply, are Option Rat with none for the empty string (the source wraps the
capital return in str, which only affects JSON rendering). -/
structure TradePayload where
  unique_identifier : String
  transaction_type : String
  transaction_date : String
  portfolio_id : String
  symbol : String
  market : String
  quantity : Rat
  price : String
  goes_ex_on : String
  brokerage : String
  brokerage_currency_code : String
  exchange_rate : String
  cost_base : Option Rat
  capital_return_value : Option Rat
  paid_on : String
  comments : String
deriving DecidableEq, Repr

/-- Remote call issued by the legacy revision. -/
inductive Call where
  | createTrade (p : TradePayload)
  | createCash (cash_account_id : Option String) (p : CashPayload)
deriving DecidableEq, Repr

/-- Recogniser for trade creation calls in a legacy trace. -/
def Call.isTrade : Call → Bool
  | .createTrade _ => true
  | _ => false

/-- Environment of the legacy revision: the trade and cash creation
responses. -/
structure Env where
  tryCreateTrade : TradePayload → ApiResponse
  tryCreateCash : Option String → CashPayload → ApiResponse

/-- Outcome printed by print_response_status of the legacy revision: a 200
prints Success; otherwise the errors dictionary decides between the two
duplicate signatures and a full error line. -/
def print_response_status (r : ApiResponse) : Outcome :=
  if r.status_code ≠ 200 then
    if r.errors ≠ [] && (isDuplicateTx r.errors || isDuplicateCash r.errors) then
      .skippedDuplicate
    else .errorLogged
  else .success

/-- Cash transaction request body of the legacy revision, whose description
is the bare description column. -/
def mkCashPayload (row : DataRow) : CashPayload :=
  { date_time := row.transaction_date
    description := row.description
    amount := row.amount
    type_name := row.transaction_type
    foreign_identifier := row.unique_identifier }

/-- Embedding of process_cash of the legacy revision: every row posts. -/
def process_cash (env : Env) (cash_account_id : Option String)
    (row : DataRow) : List Call × List Outcome :=
  let p := mkCashPayload row
  ([.createCash cash_account_id p],
   [print_response_status (env.tryCreateCash cash_account_id p)])

/-- Trade creation request body of the legacy revision: brokerage columns
pass through unchanged, the exchange rate falls back to 1 when the selected
column is empty, and the cost base of an opening balance is the bare amount
column. -/
def mkTradePayload (portfolio_id country_code : String) (row : DataRow) :
    TradePayload :=
  let is_ccr := row.transaction_type = "CAPITAL_CALL" ∨
    row.transaction_type = "CAPITAL_RETURN"
  { unique_identifier := row.unique_identifier
    transaction_type := row.transaction_type
    transaction_date := row.transaction_date
    portfolio_id := portfolio_id
    symbol := row.symbol
    market := row.market
    quantity := row.quantity
    price := row.price
    goes_ex_on := row.goes_ex_on
    brokerage := row.brokerage
    brokerage_currency_code := row.brokerage_currency_code
    exchange_rate :=
      if country_code = "GB" ∧ row.exchange_rate_gbp ≠ "" then
        row.exchange_rate_gbp
      else if country_code = "AU" ∧ row.exchange_rate_aud ≠ "" then
        row.exchange_rate_aud
      else "1"
    cost_base := if row.transaction_type = "OPENING_BALANCE" then
                   some row.amount
                 else none
    capital_return_value := if is_ccr then some |row.amount| else none
    paid_on := if is_ccr then row.transaction_date else ""
    comments := row.comments }

/-- Embedding of process_trade of the legacy revision: submit the trade; on
any non-200 response to an OPENING_BALANCE row, log the fallback and submit
exactly one retry whose body differs only in the transaction type, now BUY;
read the holding id from the last response; post the cash effect for capital
calls and returns and for AU portfolios. -/
def process_trade (env : Env) (portfolio_id country_code : String)
    (capital_cash_account_id income_cash_account_id : Option String)
    (row : DataRow) : List Call × List Outcome × Option String :=
  let is_ccr := row.transaction_type = "CAPITAL_CALL" ∨
    row.transaction_type = "CAPITAL_RETURN"
  let p1 := mkTradePayload portfolio_id country_code row
  let r1 := env.tryCreateTrade p1
  let o1 := print_response_status r1
  let retry : List Call × List Outcome × ApiResponse :=
    if r1.status_code ≠ 200 ∧ row.transaction_type = "OPENING_BALANCE" then
      let p2 := { p1 with transaction_type := "BUY" }
      let r2 := env.tryCreateTrade p2
      ([.createTrade p2], [print_response_status r2], r2)
    else ([], [], r1)
  let holding_id : Option String := retry.2.2.trade.bind (fun t => t)
  let cash : List Call × List Outcome :=
    if is_ccr ∨ country_code = "AU" then
      process_cash env
        (if is_ccr then income_cash_account_id else capital_cash_account_id) row
    else ([], [])
  ([Call.createTrade p1] ++ retry.1 ++ cash.1,
   [o1] ++ retry.2.1 ++ cash.2, holding_id)

end Legacy

/-- Reconstruction of a string from its character list. -/
theorem string_mk_data (s : String) : String.mk s.data = s := by
  cases s
  rfl

/-- Appending distributes over the character lists of a three part
concatenation. -/
theorem data_append_three (s mid p : String) :
    (s ++ mid ++ p).data = s.data ++ (mid ++ p).data := by
  simp [String.data_append, List.append_assoc]

/-- C10: removing the portfolio qualifier inverts appending it; for every
custom-instrument row, stripping the qualifier from the qualified symbol key
recovers the original symbol. -/
theorem portfolio_qualifier_round_trip :
    (∀ s p : String,
      remove_portfolio_qualifier_from_symbol (s ++ "-" ++ p) p = s) ∧
    (∀ (row : DataRow) (pid : String), pyLower row.market = "other" →
      remove_portfolio_qualifier_from_symbol
        (get_symbol_key_with_portfolio_qualifier_for_custom_instruments row pid)
        pid = row.symbol) := by
  have part1 : ∀ s p : String,
      remove_portfolio_qualifier_from_symbol (s ++ "-" ++ p) p = s := by
    intro s p
    unfold remove_portfolio_qualifier_from_symbol
    have hdata : (s ++ "-" ++ p).data = s.data ++ ("-" ++ p).data :=
      data_append_three s "-" p
    have hsuf : (("-" ++ p).data).isSuffixOf (s ++ "-" ++ p).data = true := by
      rw [hdata]
      exact List.isSuffixOf_iff_suffix.mpr (List.suffix_append _ _)
    rw [hsuf, if_pos rfl, hdata, List.length_append, Nat.add_sub_cancel,
      List.take_left, string_mk_data]
  refine ⟨part1, ?_⟩
  intro row pid hmkt
  unfold get_symbol_key_with_portfolio_qualifier_for_custom_instruments
  rw [if_pos hmkt]
  exact part1 row.symbol pid

/-- Witness for C10 at concrete inputs. -/
theorem portfolio_qualifier_round_trip_witness :
    remove_portfolio_qualifier_from_symbol ("ABC" ++ "-" ++ "77") "77" = "ABC" ∧
    remove_portfolio_qualifier_from_symbol
      (get_symbol_key_with_portfolio_qualifier_for_custom_instruments
        { emptyRow with symbol := "FUNDX", market := "Other" } "9") "9" =
      "FUNDX" :=
  ⟨portfolio_qualifier_round_trip.1 "ABC" "77",
   portfolio_qualifier_round_trip.2
     { emptyRow with symbol := "FUNDX", market := "Other" } "9" (by decide)⟩

/-- Response of a successful creation. -/
def okResp : ApiResponse := { status_code := 200, errors := [], trade := none }

/-- Response of a successful trade creation returning a holding id. -/
def okTradeResp (h : String) : ApiResponse :=
  { status_code := 200, errors := [], trade := some (some h) }

/-- Rejection carrying the duplicate trade signature. -/
def dupTradeResp : ApiResponse :=
  { status_code := 400
    errors := [("unique_identifier",
      ["A trade with this unique_identifier already exists in the portfolio."])]
    trade := none }

/-- Rejection carrying the duplicate cash transaction signature. -/
def dupCashResp : ApiResponse :=
  { status_code := 400
    errors := [("foreign_identifier", ["has already been taken"])]
    trade := none }

/-- Baseline environment for concrete scenarios: every creation succeeds, a
holding currency resolves to USD for a real id and the lookup of a missing
id raises (strict request), and the remote state is empty. -/
def envBase : Env :=
  { tryCreateTrade := fun _ => okResp
    tryCreatePayout := fun _ => okResp
    tryCreateCash := fun _ _ => okResp
    tryCreateHoldingMerge := fun _ _ => okResp
    getHolding := fun h => match h with | some _ => some "USD" | none => none
    portfolios := []
    cashAccountsOf := fun _ => []
    payoutsOf := fun _ => []
    holdingsOf := fun _ => []
    customInvestmentsOf := fun _ => []
    createPortfolioId := fun _ => "P1"
    createCashAccountId := fun _ _ => "CA1"
    createCustomInvestmentCurrency := fun _ => none
    updateCustomInvestmentCurrency := fun _ _ => none
    pricesOn := fun _ _ => []
    dayBefore := fun d => d
    openingBalanceRows := fun _ _ => [] }

/-- Baseline loop context over the baseline environment. -/
def ctxBase : LoopCtx :=
  { env := envBase, portfolio_id := "P1", country_code := "GB"
    cash_accounts := [("GBP-Account", "CA1")]
    min_date := none, min_line := none, max_line := none }

/-- C2: each of the twenty transaction type literals classifies to exactly
the operation class of the table, and the loop then runs exactly that class
branch: the trade branch for a trade-classified row, the payout branch for
a payout-classified row, the cash branch (process_cash) for a
cash-classified row, the merge pairing for a merge-classified row; a row
whose literal is outside the table makes the run return at once with a
classification error, issuing no call and processing no later row. -/
theorem classification_totality :
    (pyGet TRANSACTION_TYPE_TO_API_ENDPOINT "BUY" = some "trade" ∧
     pyGet TRANSACTION_TYPE_TO_API_ENDPOINT "SELL" = some "trade" ∧
     pyGet TRANSACTION_TYPE_TO_API_ENDPOINT "SPLIT" = some "trade" ∧
     pyGet TRANSACTION_TYPE_TO_API_ENDPOINT "BONUS" = some "trade" ∧
     pyGet TRANSACTION_TYPE_TO_API_ENDPOINT "CONSOLD" = some "trade" ∧
     pyGet TRANSACTION_TYPE_TO_API_ENDPOINT "CANCEL" = some "trade" ∧
     pyGet TRANSACTION_TYPE_TO_API_ENDPOINT "CAPITAL_RETURN" = some "trade" ∧
     pyGet TRANSACTION_TYPE_TO_API_ENDPOINT "CAPITAL_CALL" = some "trade" ∧
     pyGet TRANSACTION_TYPE_TO_API_ENDPOINT "OPENING_BALANCE" = some "trade" ∧
     pyGet TRANSACTION_TYPE_TO_API_ENDPOINT "ADJUST_COST_BASE" = some "trade" ∧
     pyGet TRANSACTION_TYPE_TO_API_ENDPOINT "DIVIDEND" = some "payout" ∧
     pyGet TRANSACTION_TYPE_TO_API_ENDPOINT "DISTRIBUTION" = some "payout" ∧
     pyGet TRANSACTION_TYPE_TO_API_ENDPOINT "DEPOSIT" = some "cash" ∧
     pyGet TRANSACTION_TYPE_TO_API_ENDPOINT "WITHDRAWAL" = some "cash" ∧
     pyGet TRANSACTION_TYPE_TO_API_ENDPOINT "INTEREST_PAYMENT" = some "cash" ∧
     pyGet TRANSACTION_TYPE_TO_API_ENDPOINT "INTEREST_CHARGED" = some "cash" ∧
     pyGet TRANSACTION_TYPE_TO_API_ENDPOINT "FEE" = some "cash" ∧
     pyGet TRANSACTION_TYPE_TO_API_ENDPOINT "FEE_REIMBURSEMENT" = some "cash" ∧
     pyGet TRANSACTION_TYPE_TO_API_ENDPOINT "MERGE_CANCEL" = some "merge" ∧
     pyGet TRANSACTION_TYPE_TO_API_ENDPOINT "MERGE_BUY" = some "merge") ∧
    (∀ (ctx : LoopCtx) (payouts holdings : List (String × String))
       (rr : RowRec),
      (pyGet TRANSACTION_TYPE_TO_API_ENDPOINT rr.row.transaction_type =
          some "trade" →
        nonmerge_row_step ctx payouts holdings rr =
          trade_row_step ctx.env ctx.portfolio_id ctx.country_code
            (rowCashAccountId ctx (qualifiedRow ctx.portfolio_id rr.row))
            (qualifiedRow ctx.portfolio_id rr.row) payouts holdings
            (rowHoldingKey ctx (qualifiedRow ctx.portfolio_id rr.row))) ∧
      (pyGet TRANSACTION_TYPE_TO_API_ENDPOINT rr.row.transaction_type =
          some "payout" →
        nonmerge_row_step ctx payouts holdings rr =
          (payout_row_step ctx.env ctx.portfolio_id ctx.country_code
            (rowCashAccountId ctx (qualifiedRow ctx.portfolio_id rr.row))
            (qualifiedRow ctx.portfolio_id rr.row) payouts holdings
            (rowHoldingKey ctx (qualifiedRow ctx.portfolio_id rr.row)),
           holdings)) ∧
      (pyGet TRANSACTION_TYPE_TO_API_ENDPOINT rr.row.transaction_type =
          some "cash" →
        nonmerge_row_step ctx payouts holdings rr =
          (process_cash ctx.env
            (rowCashAccountId ctx (qualifiedRow ctx.portfolio_id rr.row))
            (qualifiedRow ctx.portfolio_id rr.row), holdings)) ∧
      (pyGet TRANSACTION_TYPE_TO_API_ENDPOINT rr.row.transaction_type =
          none →
        nonmerge_row_step ctx payouts holdings rr =
          ({ calls := [], outs := [.errorUnknownType], halt := some Halt.ret },
           holdings))) ∧
    (∀ (ctx : LoopCtx) (payouts holdings : List (String × String))
       (rr : RowRec) (rest : List RowRec),
      passesFilters ctx rr = true →
      pyGet TRANSACTION_TYPE_TO_API_ENDPOINT rr.row.transaction_type ≠
        some "merge" →
      processRows ctx payouts holdings (rr :: rest) =
        Eff.seq (nonmerge_row_step ctx payouts holdings rr).1
          (processRows ctx payouts
            (nonmerge_row_step ctx payouts holdings rr).2 rest)) ∧
    (∀ (ctx : LoopCtx) (payouts holdings : List (String × String))
       (rr rr2 : RowRec) (rest2 : List RowRec),
      passesFilters ctx rr = true →
      pyGet TRANSACTION_TYPE_TO_API_ENDPOINT rr.row.transaction_type =
        some "merge" →
      processRows ctx payouts holdings (rr :: rr2 :: rest2) =
        Eff.seq (merge_row_step ctx.env ctx.portfolio_id holdings
          (qualifiedRow ctx.portfolio_id rr.row)
          (qualifiedRow ctx.portfolio_id rr2.row))
          (processRows ctx payouts holdings rest2)) ∧
    (∀ (ctx : LoopCtx) (payouts holdings : List (String × String))
       (rr : RowRec) (rest : List RowRec),
      pyGet TRANSACTION_TYPE_TO_API_ENDPOINT rr.row.transaction_type = none →
      passesFilters ctx rr = true →
      processRows ctx payouts holdings (rr :: rest) =
        { calls := [], outs := [.errorUnknownType], halt := some Halt.ret }) := by
  refine ⟨by decide, ?_, ?_, ?_, ?_⟩
  · intro ctx payouts holdings rr
    refine ⟨?_, ?_, ?_, ?_⟩ <;> intro hlook <;>
      unfold nonmerge_row_step <;> simp [hlook, rowCashAccountId, rowHoldingKey]
  · intro ctx payouts holdings rr rest hfilt hne
    exact processRows_cons_nonmerge ctx payouts holdings rr rest hfilt hne
  · intro ctx payouts holdings rr rr2 rest2 hfilt hm
    exact processRows_cons_merge ctx payouts holdings rr rr2 rest2 hfilt hm
  · intro ctx payouts holdings rr rest hlook hfilt
    rw [processRows_cons_nonmerge ctx payouts holdings rr rest hfilt
      (by simp [hlook])]
    unfold nonmerge_row_step
    simp [hlook, Eff.seq]

/-- Unknown transaction type row for the C2 witness. -/
def transferRow : DataRow :=
  { emptyRow with transaction_type := "TRANSFER", unique_identifier := "X1" }

/-- Deposit row following the unknown row in the C2 witness. -/
def depositAfterRow : DataRow :=
  { emptyRow with transaction_type := "DEPOSIT", unique_identifier := "X2" }

/-- Witness for C2: a DEPOSIT row dispatches to the cash branch
(process_cash), and a TRANSFER row, a literal outside the table, stops the
run before the following DEPOSIT row. -/
theorem classification_totality_witness :
    nonmerge_row_step ctxBase [] []
      { lineNum := 2, fromFile := true, row := depositAfterRow } =
      (process_cash envBase
        (rowCashAccountId ctxBase (qualifiedRow "P1" depositAfterRow))
        (qualifiedRow "P1" depositAfterRow), []) ∧
    processRows ctxBase [] []
      [{ lineNum := 2, fromFile := true, row := transferRow },
       { lineNum := 3, fromFile := true, row := depositAfterRow }] =
      { calls := [], outs := [.errorUnknownType], halt := some Halt.ret } :=
  ⟨(classification_totality.2.1 ctxBase [] []
      { lineNum := 2, fromFile := true, row := depositAfterRow }).2.2.1
      (by decide),
   classification_totality.2.2.2.2 ctxBase [] []
    { lineNum := 2, fromFile := true, row := transferRow }
    [{ lineNum := 3, fromFile := true, row := depositAfterRow }]
    (by decide) (by decide)⟩

/-- C3 amended: a merge-class row followed by a merge leg consumes both
rows as one pair; when the cancel-side holding resolves in the holdings
index the merge is issued for the buy leg against that holding and the loop
resumes exactly at the row after the pair, but when it does not resolve the
source prints an error and returns from the whole pass, so no row after the
pair is processed; a merge-class row whose next row is not a merge leg
stops the run with a structural error after consuming only that one
lookahead row, issuing no call. -/
theorem merge_pairing :
    (∀ (ctx : LoopCtx) (payouts holdings : List (String × String))
       (rr1 rr2 : RowRec) (rest : List RowRec) (h : String),
      pyGet TRANSACTION_TYPE_TO_API_ENDPOINT rr1.row.transaction_type =
        some "merge" →
      passesFilters ctx rr1 = true →
      (rr2.row.transaction_type = "MERGE_BUY" ∨
       rr2.row.transaction_type = "MERGE_CANCEL") →
      pyGet holdings
        (get_portfolio_holdings_lookup_key ctx.portfolio_id
          (if rr2.row.transaction_type = "MERGE_CANCEL" then
            qualifiedRow ctx.portfolio_id rr2.row
          else qualifiedRow ctx.portfolio_id rr1.row).symbol
          (if rr2.row.transaction_type = "MERGE_CANCEL" then
            qualifiedRow ctx.portfolio_id rr2.row
          else qualifiedRow ctx.portfolio_id rr1.row).market) = some h →
      processRows ctx payouts holdings (rr1 :: rr2 :: rest) =
        Eff.seq
          (process_merge ctx.env ctx.portfolio_id h
            (if rr2.row.transaction_type = "MERGE_CANCEL" then
              qualifiedRow ctx.portfolio_id rr1.row
            else qualifiedRow ctx.portfolio_id rr2.row))
          (processRows ctx payouts holdings rest)) ∧
    (∀ (ctx : LoopCtx) (payouts holdings : List (String × String))
       (rr1 rr2 : RowRec) (rest : List RowRec),
      pyGet TRANSACTION_TYPE_TO_API_ENDPOINT rr1.row.transaction_type =
        some "merge" →
      passesFilters ctx rr1 = true →
      rr2.row.transaction_type ≠ "MERGE_BUY" →
      rr2.row.transaction_type ≠ "MERGE_CANCEL" →
      processRows ctx payouts holdings (rr1 :: rr2 :: rest) =
        { calls := [], outs := [.errorBadMergePair], halt := some Halt.exn }) ∧
    (∀ (ctx : LoopCtx) (payouts holdings : List (String × String))
       (rr1 rr2 : RowRec) (rest : List RowRec),
      pyGet TRANSACTION_TYPE_TO_API_ENDPOINT rr1.row.transaction_type =
        some "merge" →
      passesFilters ctx rr1 = true →
      (rr2.row.transaction_type = "MERGE_BUY" ∨
       rr2.row.transaction_type = "MERGE_CANCEL") →
      pyGet holdings
        (get_portfolio_holdings_lookup_key ctx.portfolio_id
          (if rr2.row.transaction_type = "MERGE_CANCEL" then
            qualifiedRow ctx.portfolio_id rr2.row
          else qualifiedRow ctx.portfolio_id rr1.row).symbol
          (if rr2.row.transaction_type = "MERGE_CANCEL" then
            qualifiedRow ctx.portfolio_id rr2.row
          else qualifiedRow ctx.portfolio_id rr1.row).market) = none →
      processRows ctx payouts holdings (rr1 :: rr2 :: rest) =
        { calls := [], outs := [.errorMergeMissingHolding]
          halt := some Halt.ret }) := by
  refine ⟨?_, ?_, ?_⟩
  · intro ctx payouts holdings rr1 rr2 rest h hlook hfilt hleg hfound
    rw [processRows_cons_merge ctx payouts holdings rr1 rr2 rest hfilt hlook]
    unfold merge_row_step
    rcases hleg with hb | hc <;> simp_all
  · intro ctx payouts holdings rr1 rr2 rest hlook hfilt hnb hnc
    rw [processRows_cons_merge ctx payouts holdings rr1 rr2 rest hfilt hlook]
    unfold merge_row_step
    simp [hnb, hnc, Eff.seq]
  · intro ctx payouts holdings rr1 rr2 rest hlook hfilt hleg hfound
    rw [processRows_cons_merge ctx payouts holdings rr1 rr2 rest hfilt hlook]
    unfold merge_row_step
    rcases hleg with hb | hc <;> simp_all [Eff.seq]

/-- Cancel leg of the merge witness. -/
def mergeCancelRow : DataRow := { emptyRow with
  transaction_type := "MERGE_CANCEL", unique_identifier := "M1"
  symbol := "OLD", market := "ASX", transaction_date := "2024-02-01"
  quantity := 5 }

/-- Buy leg of the merge witness. -/
def mergeBuyRow : DataRow := { emptyRow with
  transaction_type := "MERGE_BUY", unique_identifier := "M2"
  symbol := "NEW", market := "ASX", transaction_date := "2024-02-01"
  quantity := 5 }

/-- Cancel leg row record of the merge witness. -/
def mergeCancelRec : RowRec :=
  { lineNum := 2, fromFile := true, row := mergeCancelRow }

/-- Buy leg row record of the merge witness. -/
def mergeBuyRec : RowRec :=
  { lineNum := 3, fromFile := true, row := mergeBuyRow }

/-- Non-merge row following a merge row in the witness. -/
def mergeBadFollowRec : RowRec :=
  { lineNum := 3, fromFile := true, row := depositAfterRow }

/-- Holdings index containing the cancel side of the merge witness. -/
def mergeHoldings : List (String × String) :=
  [(get_portfolio_holdings_lookup_key "P1" "OLD" "ASX", "H7")]

/-- Witness for C3 at concrete inputs: a well-formed pair whose cancel-side
holding resolves resumes after the pair, a broken pair stops with the
structural error, and a well-formed pair whose cancel-side holding is
absent stops the whole pass. -/
theorem merge_pairing_witness :
    (processRows ctxBase [] mergeHoldings [mergeCancelRec, mergeBuyRec] =
      Eff.seq
        (process_merge ctxBase.env ctxBase.portfolio_id "H7"
          (qualifiedRow ctxBase.portfolio_id mergeBuyRec.row))
        (processRows ctxBase [] mergeHoldings [])) ∧
    (processRows ctxBase [] mergeHoldings [mergeCancelRec, mergeBadFollowRec] =
      { calls := [], outs := [.errorBadMergePair], halt := some Halt.exn }) ∧
    (processRows ctxBase [] [] [mergeCancelRec, mergeBuyRec] =
      { calls := [], outs := [.errorMergeMissingHolding]
        halt := some Halt.ret }) :=
  ⟨merge_pairing.1 ctxBase [] mergeHoldings mergeCancelRec mergeBuyRec [] "H7"
     (by decide) (by decide) (Or.inl rfl) (by decide),
   merge_pairing.2.1 ctxBase [] mergeHoldings mergeCancelRec mergeBadFollowRec
     [] (by decide) (by decide) (by decide) (by decide),
   merge_pairing.2.2 ctxBase [] [] mergeCancelRec mergeBuyRec []
     (by decide) (by decide) (Or.inl rfl) (by decide)⟩

/-- Counterexample for C3 as stated: a merge pair whose cancel-side holding
is not in the holdings index does not resume at the row after the pair; the
source prints an error and returns from the whole pass, so the DEPOSIT row
after the pair is never processed (no cash call is issued and the run ends
with the return). -/
theorem merge_pairing_missing_holding_counterexample :
    processRows ctxBase [] []
      [mergeCancelRec, mergeBuyRec,
       { lineNum := 4, fromFile := true, row := depositAfterRow }] =
      { calls := [], outs := [.errorMergeMissingHolding]
        halt := some Halt.ret } := by
  decide

/-- Opening balance row carrying a nonzero amount, for the C8
counterexample. -/
def obCashRow : DataRow := { emptyRow with
  transaction_type := "OPENING_BALANCE", unique_identifier := "OB1"
  transaction_date := "2024-01-01", amount := 100, amount_currency := "GBP" }

/-- Counterexample for C8: an opening balance row with a nonzero amount is
skipped for cash posting with no warning at all, because the source excludes
OPENING_BALANCE from the nonzero-amount warning. -/
theorem opening_balance_nonzero_amount_no_warning :
    obCashRow.amount ≠ 0 ∧
    obCashRow.transaction_type = "OPENING_BALANCE" ∧
    process_cash envBase (some "CA1") obCashRow = emptyEff :=
  ⟨by decide, rfl, by decide⟩

/-- C8 amended: every row of the five non-cash types named by the spec posts
no cash transaction, and the nonzero-amount warning is logged exactly when
the amount is nonzero and the row is not an opening balance. -/
theorem non_cash_row_skip (env : Env) (ca : Option String) (row : DataRow)
    (h : row.transaction_type ∈
      ["OPENING_BALANCE", "CANCEL", "CONSOLD", "BONUS", "SPLIT"]) :
    (process_cash env ca row).calls = [] ∧
    (process_cash env ca row).outs =
      (if row.amount ≠ 0 ∧ row.transaction_type ≠ "OPENING_BALANCE" then
        [Outcome.warnNonCashWithAmount] else []) := by
  have hmem : row.transaction_type ∈ NON_CASH_TX_TYPES := by
    simp only [NON_CASH_TX_TYPES, List.mem_cons, List.not_mem_nil, or_false] at h ⊢
    tauto
  rw [process_cash, if_pos hmem]
  constructor <;> split <;> simp [emptyEff]

/-- Witness for the amended C8 at a concrete CANCEL row with a nonzero
amount: no call, one warning. -/
theorem non_cash_row_skip_witness :
    (process_cash envBase (some "CA1")
      { emptyRow with transaction_type := "CANCEL", amount := 50 }).calls = [] ∧
    (process_cash envBase (some "CA1")
      { emptyRow with transaction_type := "CANCEL", amount := 50 }).outs =
      (if ({ emptyRow with transaction_type := "CANCEL", amount := 50 } : DataRow).amount ≠ 0 ∧
          ({ emptyRow with transaction_type := "CANCEL", amount := 50 } : DataRow).transaction_type ≠ "OPENING_BALANCE" then
        [Outcome.warnNonCashWithAmount] else []) :=
  non_cash_row_skip envBase (some "CA1")
    { emptyRow with transaction_type := "CANCEL", amount := 50 } (by decide)

/-- C6: a payout row whose de-duplication key is already in the pre-loaded
payout index issues no payout creation, prints the skip line, and still
attempts the cash posting for that row. -/
theorem duplicate_payout_cash_follow_through (env : Env)
    (pid cc : String) (ca : Option String) (row : DataRow) (h : String)
    (payouts : List (String × String))
    (hdup : pyGet payouts
      (get_portfolio_payouts_lookup_key pid h row.transaction_date) ≠ none)
    (hcls : row.transaction_type = "DIVIDEND" ∨
      row.transaction_type = "DISTRIBUTION") :
    (process_payout env pid cc ca row h payouts).calls =
      [.createCash ca (mkCashPayload row)] ∧
    Outcome.skippedPayoutExists ∈
      (process_payout env pid cc ca row h payouts).outs := by
  have hnc : row.transaction_type ∉ NON_CASH_TX_TYPES := by
    rcases hcls with h1 | h1 <;> rw [h1] <;> decide
  obtain ⟨v, hv⟩ := Option.ne_none_iff_exists'.mp hdup
  unfold process_payout
  rw [hv]
  simp [Eff.seq, process_cash, hnc]

/-- Dividend row of the C6 witness. -/
def dividendRow : DataRow := { emptyRow with
  transaction_type := "DIVIDEND", unique_identifier := "D1"
  transaction_date := "2024-03-01", symbol := "GOOG", market := "NYSE"
  amount := 25, amount_currency := "GBP" }

/-- Payout index of the C6 witness, already holding the key of the
dividend. -/
def dupPayoutIndex : List (String × String) :=
  [(get_portfolio_payouts_lookup_key "P1" "H1" "2024-03-01", "PO1")]

/-- Witness for C6 at concrete inputs. -/
theorem duplicate_payout_cash_follow_through_witness :
    (process_payout envBase "P1" "GB" (some "CA1") dividendRow "H1"
      dupPayoutIndex).calls =
      [.createCash (some "CA1") (mkCashPayload dividendRow)] ∧
    Outcome.skippedPayoutExists ∈
      (process_payout envBase "P1" "GB" (some "CA1") dividendRow "H1"
        dupPayoutIndex).outs :=
  duplicate_payout_cash_follow_through envBase "P1" "GB" (some "CA1")
    dividendRow "H1" dupPayoutIndex (by decide) (Or.inl rfl)

theorem no_payout_call_in_cash (env : Env) (ca : Option String) (row : DataRow)
    (p : PayoutPayload) :
    ApiCall.createPayout p ∉ (process_cash env ca row).calls := by
  unfold process_cash
  split
  · split <;> simp [emptyEff]
  · simp

theorem payout_call_guarded (env : Env) (pid cc : String) (ca : Option String)
    (row : DataRow) (h : String) (payouts : List (String × String))
    (p : PayoutPayload)
    (hmem : ApiCall.createPayout p ∈ (process_payout env pid cc ca row h payouts).calls) :
    pyGet payouts (get_portfolio_payouts_lookup_key p.portfolio_id p.holding_id
      p.paid_on) = none := by
  unfold process_payout at hmem
  rcases hguard : pyGet payouts
      (get_portfolio_payouts_lookup_key pid h row.transaction_date) with _ | v
  · rw [hguard] at hmem
    simp only [if_pos rfl, Eff.seq, Option.isSome_none, Bool.false_eq_true,
      if_false, List.cons_append, List.nil_append, List.mem_cons] at hmem
    cases hmem with
    | head => simpa [mkPayoutPayload] using hguard
    | tail b hmem => exact absurd hmem (no_payout_call_in_cash env ca row p)
  · rw [hguard] at hmem
    simp only [Eff.seq, Option.isSome_none, Bool.false_eq_true, if_false,
      List.nil_append] at hmem
    exact absurd hmem (no_payout_call_in_cash env ca row p)

theorem no_payout_call_in_currency_check (env : Env) (row : DataRow)
    (hid : Option String) (curCalls : List ApiCall) (curOuts : List Outcome)
    (hcs : currency_check_step env row hid = some (curCalls, curOuts))
    (p : PayoutPayload) : ApiCall.createPayout p ∉ curCalls := by
  unfold currency_check_step at hcs
  split at hcs
  · split at hcs
    · cases hcs
    · cases hcs
      simp
  · cases hcs
    simp

theorem payout_calls_guarded_in_trade (env : Env) (pid cc : String)
    (ca : Option String) :
    ∀ (depth : Nat) (row : DataRow) (payouts : List (String × String))
      (p : PayoutPayload),
      ApiCall.createPayout p ∈
        (process_trade_aux env pid cc ca depth row payouts).1.calls →
      pyGet payouts (get_portfolio_payouts_lookup_key p.portfolio_id
        p.holding_id p.paid_on) = none := by
  intro depth
  induction depth with
  | zero =>
      intro row payouts p hmem
      rw [process_trade_aux] at hmem
      rcases hcs : currency_check_step env row
          ((env.tryCreateTrade (mkTradePayload pid cc row)).trade.bind (fun t => t))
        with _ | ⟨curCalls, curOuts⟩ <;> rw [hcs] at hmem
      · simp at hmem
      · simp only [List.cons_append, List.nil_append, List.mem_cons,
          List.mem_append] at hmem
        rcases hmem with hmem | ((hmem | hmem) | hmem)
        · cases hmem
        · exact absurd hmem (no_payout_call_in_currency_check env row _ _ _ hcs p)
        · exact absurd hmem (no_payout_call_in_cash env ca row p)
        · split at hmem
          · split at hmem
            · exact payout_call_guarded env pid cc ca _ _ payouts p hmem
            · simp [emptyEff] at hmem
          · simp [emptyEff] at hmem
  | succ d ih =>
      intro row payouts p hmem
      rw [process_trade_aux] at hmem
      rcases hcs : currency_check_step env row
          ((env.tryCreateTrade (mkTradePayload pid cc row)).trade.bind (fun t => t))
        with _ | ⟨curCalls, curOuts⟩ <;> rw [hcs] at hmem
      · simp at hmem
      · simp only [List.cons_append, List.nil_append, List.mem_cons,
          List.mem_append] at hmem
        rcases hmem with hmem | ((hmem | hmem) | hmem)
        · cases hmem
        · exact absurd hmem (no_payout_call_in_currency_check env row _ _ _ hcs p)
        · exact absurd hmem (no_payout_call_in_cash env ca row p)
        · split at hmem
          · split at hmem
            · exact payout_call_guarded env pid cc ca _ _ payouts p hmem
            · exact ih _ payouts p hmem
          · simp [emptyEff] at hmem

theorem no_payout_call_in_merge (env : Env) (pid h : String) (row : DataRow)
    (p : PayoutPayload) :
    ApiCall.createPayout p ∉ (process_merge env pid h row).calls := by
  unfold process_merge
  simp

theorem mem_seq_calls {c : ApiCall} {a b : Eff}
    (h : c ∈ (Eff.seq a b).calls) : c ∈ a.calls ∨ c ∈ b.calls := by
  unfold Eff.seq at h
  split at h
  · exact Or.inl h
  · simpa using List.mem_append.mp h

theorem payout_call_guarded_in_trade_entry (env : Env) (pid cc : String)
    (ca : Option String) (row : DataRow) (payouts : List (String × String))
    (p : PayoutPayload)
    (hmem : ApiCall.createPayout p ∈ (process_trade env pid cc ca row payouts).1.calls) :
    pyGet payouts (get_portfolio_payouts_lookup_key p.portfolio_id
      p.holding_id p.paid_on) = none :=
  payout_calls_guarded_in_trade env pid cc ca 1 row payouts p
    (by simpa [process_trade] using hmem)

theorem trade_row_step_calls (env : Env) (pid cc : String)
    (ca : Option String) (row : DataRow)
    (payouts holdings : List (String × String)) (hk : String) :
    (trade_row_step env pid cc ca row payouts holdings hk).1.calls =
      (process_trade env pid cc ca row payouts).1.calls := by
  unfold trade_row_step
  simp only []
  split
  · rfl
  · split <;> rfl

theorem payout_row_step_guard (env : Env) (pid cc : String)
    (ca : Option String) (row : DataRow)
    (payouts holdings : List (String × String)) (hk : String)
    (p : PayoutPayload)
    (hmem : ApiCall.createPayout p ∈
      (payout_row_step env pid cc ca row payouts holdings hk).calls) :
    pyGet payouts (get_portfolio_payouts_lookup_key p.portfolio_id
      p.holding_id p.paid_on) = none := by
  unfold payout_row_step at hmem
  rcases hfound : pyGet holdings hk with _ | h2 <;> rw [hfound] at hmem
  · simp at hmem
  · exact payout_call_guarded env pid cc ca row h2 payouts p hmem

theorem no_payout_call_in_merge_step (env : Env) (pid : String)
    (holdings : List (String × String)) (row row2 : DataRow)
    (p : PayoutPayload) :
    ApiCall.createPayout p ∉ (merge_row_step env pid holdings row row2).calls := by
  intro hmem
  unfold merge_row_step at hmem
  split at hmem
  · simp at hmem
  · simp only [] at hmem
    rcases hfound : pyGet holdings (get_portfolio_holdings_lookup_key pid
        (if row2.transaction_type = "MERGE_CANCEL" then row2 else row).symbol
        (if row2.transaction_type = "MERGE_CANCEL" then row2 else row).market)
      with _ | h2 <;> rw [hfound] at hmem
    · simp at hmem
    · exact no_payout_call_in_merge env pid h2 _ p hmem

theorem nonmerge_row_step_guard (ctx : LoopCtx)
    (payouts holdings : List (String × String)) (rr : RowRec)
    (p : PayoutPayload)
    (hmem : ApiCall.createPayout p ∈
      (nonmerge_row_step ctx payouts holdings rr).1.calls) :
    pyGet payouts (get_portfolio_payouts_lookup_key p.portfolio_id
      p.holding_id p.paid_on) = none := by
  unfold nonmerge_row_step at hmem
  simp only [] at hmem
  split at hmem
  · rw [trade_row_step_calls] at hmem
    exact payout_call_guarded_in_trade_entry ctx.env ctx.portfolio_id
      ctx.country_code _ _ payouts p hmem
  · split at hmem
    · exact payout_row_step_guard ctx.env ctx.portfolio_id ctx.country_code
        _ _ payouts holdings _ p hmem
    · split at hmem
      · exact absurd hmem (no_payout_call_in_cash ctx.env _ _ p)
      · simp at hmem

theorem loop_payout_guard (ctx : LoopCtx) (payouts : List (String × String)) :
    ∀ (n : Nat) (rows : List RowRec) (holdings : List (String × String))
      (p : PayoutPayload),
      rows.length ≤ n →
      ApiCall.createPayout p ∈ (processRows ctx payouts holdings rows).calls →
      pyGet payouts (get_portfolio_payouts_lookup_key p.portfolio_id
        p.holding_id p.paid_on) = none := by
  intro n
  induction n with
  | zero =>
      intro rows holdings p hlen hmem
      have hnil : rows = [] := List.length_eq_zero.mp (Nat.le_zero.mp hlen)
      subst hnil
      simp [processRows, emptyEff] at hmem
  | succ n ih =>
      intro rows holdings p hlen hmem
      cases rows with
      | nil => simp [processRows, emptyEff] at hmem
      | cons rr rest =>
        have hrest : rest.length ≤ n := by
          simpa using Nat.le_of_succ_le_succ (by simpa using hlen)
        by_cases hfilt : passesFilters ctx rr = false
        · rw [processRows_cons_filtered ctx payouts holdings rr rest hfilt]
            at hmem
          exact ih rest holdings p hrest hmem
        · have hfilt2 : passesFilters ctx rr = true := by
            simpa using hfilt
          by_cases hm : pyGet TRANSACTION_TYPE_TO_API_ENDPOINT
              rr.row.transaction_type = some "merge"
          · cases rest with
            | nil =>
                rw [processRows_cons_merge_nil ctx payouts holdings rr hfilt2
                  hm] at hmem
                simp at hmem
            | cons rr2 rest2 =>
                rw [processRows_cons_merge ctx payouts holdings rr rr2 rest2
                  hfilt2 hm] at hmem
                rcases mem_seq_calls hmem with hmem | hmem
                · exact absurd hmem
                    (no_payout_call_in_merge_step ctx.env ctx.portfolio_id
                      holdings _ _ p)
                · refine ih rest2 holdings p ?_ hmem
                  simp only [List.length_cons] at hrest ⊢
                  omega
          · rw [processRows_cons_nonmerge ctx payouts holdings rr rest hfilt2
              hm] at hmem
            rcases mem_seq_calls hmem with hmem | hmem
            · exact nonmerge_row_step_guard ctx payouts holdings rr p hmem
            · exact ih rest _ p hrest hmem

/-- C5 amended: during a single run of the row loop, no payout creation
request is ever issued for a triple already present in the pre-loaded payout
index (the source only consults that index, and never extends it during the
run, so within-run repeats of a fresh triple are not prevented; see the
counterexample). -/
theorem payout_preloaded_index_never_recreated (ctx : LoopCtx)
    (payouts holdings : List (String × String)) (rows : List RowRec)
    (p : PayoutPayload)
    (hmem : ApiCall.createPayout p ∈
      (processRows ctx payouts holdings rows).calls) :
    pyGet payouts (get_portfolio_payouts_lookup_key p.portfolio_id
      p.holding_id p.paid_on) = none :=
  loop_payout_guard ctx payouts rows.length rows holdings p
    (Nat.le_refl rows.length) hmem

/-- Number of payout creation requests in a trace for one
(portfolio, holding, paid_on) triple. -/
def payoutTripleCalls (pid h paid : String) (calls : List ApiCall) : Nat :=
  (calls.filter (fun c =>
    match c with
    | .createPayout p =>
        decide (p.portfolio_id = pid ∧ p.holding_id = h ∧ p.paid_on = paid)
    | _ => false)).length

/-- First dividend row of the C5 counterexample. -/
def divRowA : DataRow := { dividendRow with unique_identifier := "D1" }

/-- Second dividend row of the C5 counterexample, same holding and date. -/
def divRowB : DataRow := { dividendRow with unique_identifier := "D2" }

/-- Holdings index of a pre-existing, non-empty portfolio for the C5
scenario. -/
def divHoldings : List (String × String) :=
  [(get_portfolio_holdings_lookup_key "P1" "GOOG" "NYSE", "H1")]

/-- Counterexample for C5: two dividend rows for the same holding and pay
date in one run against a non-empty pre-existing portfolio both issue a
payout creation for the same triple, because the in-memory index is never
extended during the run. -/
theorem payout_within_run_duplicate_counterexample :
    payoutTripleCalls "P1" "H1" "2024-03-01"
      (processRows ctxBase [] divHoldings
        [{ lineNum := 2, fromFile := true, row := divRowA },
         { lineNum := 3, fromFile := true, row := divRowB }]).calls = 2 := by
  decide

/-- Witness for the amended C5: a run that does issue a payout creation has
that triple absent from the pre-loaded index. -/
theorem payout_preloaded_index_never_recreated_witness :
    pyGet ([] : List (String × String))
      (get_portfolio_payouts_lookup_key
        (mkPayoutPayload "P1" "GB" divRowA "H1").portfolio_id
        (mkPayoutPayload "P1" "GB" divRowA "H1").holding_id
        (mkPayoutPayload "P1" "GB" divRowA "H1").paid_on) = none :=
  payout_preloaded_index_never_recreated ctxBase [] divHoldings
    [{ lineNum := 2, fromFile := true, row := divRowA }]
    (mkPayoutPayload "P1" "GB" divRowA "H1") (by decide)

/-- Recogniser for payout creation calls in a trace. -/
def isPayoutCall : ApiCall → Bool
  | .createPayout _ => true
  | _ => false

/-- Cash posting never contributes a payout creation to the trace. -/
theorem filter_payout_process_cash (env : Env) (ca : Option String)
    (row : DataRow) :
    (process_cash env ca row).calls.filter isPayoutCall = [] := by
  unfold process_cash
  split
  · split <;> simp [emptyEff]
  · simp [isPayoutCall]

/-- A row outside the non-cash list posts exactly its cash transaction. -/
theorem process_cash_calls_not_non_cash (env : Env) (ca : Option String)
    (row : DataRow) (h : row.transaction_type ∉ NON_CASH_TX_TYPES) :
    (process_cash env ca row).calls = [.createCash ca (mkCashPayload row)] := by
  unfold process_cash
  rw [if_neg h]

/-- With the de-duplication key absent, process_payout issues the payout
creation followed by the cash posting. -/
theorem process_payout_calls_create (env : Env) (pid cc : String)
    (ca : Option String) (row2 : DataRow) (h : String)
    (payouts : List (String × String))
    (hg : pyGet payouts (get_portfolio_payouts_lookup_key pid h
      row2.transaction_date) = none) :
    (process_payout env pid cc ca row2 h payouts).calls =
      [.createPayout (mkPayoutPayload pid cc row2 h)] ++
        (process_cash env ca row2).calls := by
  unfold process_payout
  rw [hg]
  simp [Eff.seq]

/-- C7 amended: a SELL row with a nonzero accrued income whose trade create
returned a holding id, whose currency check did not raise, and whose
(portfolio, holding, sale date) key is not in the pre-loaded payout index,
produces exactly one payout creation request, for the synthetic row whose
unique identifier is the original identifier with the -accrued_income
suffix; the cash posting of the original row is still made with the
original, unchanged amount.  When the key is pre-loaded the extra payout is
skipped instead (see the counterexample). -/
theorem accrued_income_split_on_sell (env : Env) (pid cc : String)
    (ca : Option String) (row : DataRow) (payouts : List (String × String))
    (hid : String)
    (h1 : row.transaction_type = "SELL")
    (h2 : row.accrued_income ≠ 0)
    (h3 : (env.tryCreateTrade (mkTradePayload pid cc row)).trade =
      some (some hid))
    (h4 : pyLower row.market = "other" ∨ (env.getHolding (some hid)).isSome)
    (h5 : pyGet payouts (get_portfolio_payouts_lookup_key pid hid
      row.transaction_date) = none) :
    ((process_trade env pid cc ca row payouts).1.calls.filter isPayoutCall) =
      [.createPayout (mkPayoutPayload pid cc
        { mkAccruedIncomeRow row with
          goes_ex_on := env.dayBefore row.transaction_date } hid)] ∧
    (mkAccruedIncomeRow row).unique_identifier =
      row.unique_identifier ++ "-accrued_income" ∧
    ApiCall.createCash ca (mkCashPayload row) ∈
      (process_trade env pid cc ca row payouts).1.calls ∧
    (mkCashPayload row).amount = row.amount := by
  have hsellnc : row.transaction_type ∉ NON_CASH_TX_TYPES := by
    rw [h1]; decide
  have hcs2 : ∃ cs : List ApiCall × List Outcome,
      currency_check_step env row (some hid) = some cs ∧
      cs.1.filter isPayoutCall = [] := by
    unfold currency_check_step
    by_cases hmkt2 : pyLower row.market ≠ "other"
    · rw [if_pos hmkt2]
      rcases h4 with hmkt | hgh
      · exact absurd hmkt (by simpa using hmkt2)
      · obtain ⟨c, hc⟩ := Option.isSome_iff_exists.mp hgh
        rw [hc]
        exact ⟨_, rfl, by simp [isPayoutCall]⟩
    · rw [if_neg hmkt2]
      exact ⟨([], []), rfl, rfl⟩
  obtain ⟨⟨curC, curO⟩, hcs, hcfilter⟩ := hcs2
  rw [process_trade, process_trade_aux]
  simp only [h3, Option.some_bind, hcs]
  rw [if_pos ⟨h2, Or.inl h1⟩, if_pos h1]
  refine ⟨?_, rfl, ?_, rfl⟩
  · rw [process_payout_calls_create]
    · simp [List.filter_append, hcfilter, filter_payout_process_cash,
        isPayoutCall]
      rfl
    · exact h5
  · simp [List.mem_append, process_cash_calls_not_non_cash env ca row hsellnc]

/-- SELL row with an accrued income component for the C7 scenarios. -/
def sellAccruedRow : DataRow := { emptyRow with
  transaction_type := "SELL", unique_identifier := "S1"
  transaction_date := "2024-04-01", symbol := "BOND", market := "NYSE"
  quantity := 5, amount := 500, amount_currency := "GBP"
  instrument_currency := "USD", accrued_income := 7
  accrued_income_in_instrument_currency := 7 }

/-- Environment of the C7 scenarios: trade creation succeeds and returns a
holding id. -/
def envC7 : Env := { envBase with tryCreateTrade := fun _ => okTradeResp "H9" }

/-- Payout index already holding the key of the sale date of the accrued
income split. -/
def preloadedSellPayouts : List (String × String) :=
  [(get_portfolio_payouts_lookup_key "P1" "H9" "2024-04-01", "PX")]

/-- Counterexample for C7: a SELL row with nonzero accrued income produces
no additional payout request at all when the (portfolio, holding, sale date)
key is already in the pre-loaded payout index. -/
theorem accrued_income_payout_skipped_counterexample :
    sellAccruedRow.transaction_type = "SELL" ∧
    sellAccruedRow.accrued_income ≠ 0 ∧
    ((process_trade envC7 "P1" "GB" (some "CA1") sellAccruedRow
      preloadedSellPayouts).1.calls.filter isPayoutCall) = [] :=
  ⟨rfl, by decide, by decide⟩

/-- Witness for the amended C7 at concrete inputs. -/
theorem accrued_income_split_on_sell_witness :
    ((process_trade envC7 "P1" "GB" (some "CA1") sellAccruedRow
      []).1.calls.filter isPayoutCall) =
      [.createPayout (mkPayoutPayload "P1" "GB"
        { mkAccruedIncomeRow sellAccruedRow with
          goes_ex_on := envC7.dayBefore sellAccruedRow.transaction_date }
        "H9")] ∧
    (mkAccruedIncomeRow sellAccruedRow).unique_identifier =
      sellAccruedRow.unique_identifier ++ "-accrued_income" ∧
    ApiCall.createCash (some "CA1") (mkCashPayload sellAccruedRow) ∈
      (process_trade envC7 "P1" "GB" (some "CA1") sellAccruedRow []).1.calls ∧
    (mkCashPayload sellAccruedRow).amount = sellAccruedRow.amount :=
  accrued_income_split_on_sell envC7 "P1" "GB" (some "CA1") sellAccruedRow []
    "H9" rfl (by decide) (by decide) (Or.inr (by decide)) (by decide)

/-- Environment of a second run over the same ledger: the remote rejects the
re-submitted trade and cash transaction with the duplicate signatures. -/
def envSecondRun : Env := { envBase with
  tryCreateTrade := fun _ => dupTradeResp
  tryCreateCash := fun _ _ => dupCashResp }

/-- Loop context of the second run. -/
def ctxSecondRun : LoopCtx := { ctxBase with env := envSecondRun }

/-- Listed-market BUY row that succeeded on the first run. -/
def rerunBuyRow : DataRow := { emptyRow with
  transaction_type := "BUY", unique_identifier := "T1"
  transaction_date := "2024-01-02", symbol := "GOOG", market := "NYSE"
  quantity := 10, price := "100", amount := 1000, amount_currency := "GBP"
  instrument_currency := "USD" }

/-- Deposit row after the BUY row, which also succeeded on the first run. -/
def rerunDepositRow : DataRow := { emptyRow with
  transaction_type := "DEPOSIT", unique_identifier := "C1"
  transaction_date := "2024-01-03", amount := 500, amount_currency := "GBP" }

/-- Holdings index pre-loaded from the remote state left by the first run. -/
def secondRunHoldings : List (String × String) :=
  [(get_portfolio_holdings_lookup_key "P1" "GOOG" "NYSE", "H1")]

/-- C1 (defect evidence): on the second run, the duplicate-rejected BUY row
does print the skipped duplicate line, but the trade create returns no
holding id and, the market not being other, the engine then issues the
strict holding-currency request with a None holding id; that request fails
and raises, so the run stops before the cash posting of the BUY row and
before the DEPOSIT row, which therefore never produces its skipped
(duplicate) outcome. -/
theorem second_run_trade_crash_eval :
    (processRows ctxSecondRun [] secondRunHoldings
      [{ lineNum := 2, fromFile := true, row := rerunBuyRow },
       { lineNum := 3, fromFile := true, row := rerunDepositRow }]) =
    { calls := [ApiCall.createTrade (mkTradePayload "P1" "GB" rerunBuyRow),
                ApiCall.getHolding none]
      outs := [Outcome.skippedDuplicate]
      halt := some Halt.exn } := by decide

/-- C4: in the revision of src/import-sharesight.py, an OPENING_BALANCE row
whose trade create is rejected (any non-200, so in particular a missing
historical price rejection) is retried exactly once with the transaction
type replaced by BUY and every other request field identical; there is no
further retry, and the outcome of the retry response is logged right after
the first one. -/
theorem opening_balance_fallback (env : Legacy.Env) (pid cc : String)
    (cap inc : Option String) (row : DataRow)
    (h1 : row.transaction_type = "OPENING_BALANCE")
    (h2 : (env.tryCreateTrade (Legacy.mkTradePayload pid cc row)).status_code ≠ 200) :
    ((Legacy.process_trade env pid cc cap inc row).1.filter Legacy.Call.isTrade) =
      [.createTrade (Legacy.mkTradePayload pid cc row),
       .createTrade { Legacy.mkTradePayload pid cc row with
         transaction_type := "BUY" }] ∧
    ((Legacy.process_trade env pid cc cap inc row).2.1.take 2) =
      [Legacy.print_response_status
        (env.tryCreateTrade (Legacy.mkTradePayload pid cc row)),
       Legacy.print_response_status
        (env.tryCreateTrade { Legacy.mkTradePayload pid cc row with
          transaction_type := "BUY" })] := by
  unfold Legacy.process_trade
  simp only []
  rw [if_pos ⟨h2, h1⟩]
  constructor
  · simp only [List.cons_append, List.nil_append, List.filter_cons]
    simp only [Legacy.Call.isTrade, if_true]
    split
    · simp [Legacy.process_cash, Legacy.Call.isTrade]
    · simp [Legacy.Call.isTrade]
  · split <;> simp [Legacy.process_cash]

/-- C9: a run requesting the destructive reset together with a truthy
minimum date, minimum line or maximum line filter stops at once: no remote
call of any kind is issued and no row is processed. -/
theorem reset_filter_mutual_exclusion (env : Env) (file_rows : List RowRec)
    (pn cc : String) (min_date : Option String)
    (ob_on ob_from : Option String) (min_line max_line : Option Nat)
    (prices_file : Option (List PriceRow))
    (h : (pyTruthyDate min_date || pyTruthyNat min_line ||
      pyTruthyNat max_line) = true) :
    import_file env file_rows pn cc true min_date ob_on ob_from min_line
      max_line prices_file =
      { calls := [], outs := [.errorResetWithFilter], halt := some Halt.ret } := by
  unfold import_file
  rw [if_pos (by simp [h])]

/-- Witness for C9 at concrete inputs. -/
theorem reset_filter_mutual_exclusion_witness :
    import_file envBase [] "Portfolio" "GB" true none none none (some 5) none
      none =
      { calls := [], outs := [.errorResetWithFilter], halt := some Halt.ret } :=
  reset_filter_mutual_exclusion envBase [] "Portfolio" "GB" none none none
    (some 5) none none (by decide)

/-- Legacy environment whose trade creation always fails citing missing
price history. -/
def legacyFailEnv : Legacy.Env :=
  { tryCreateTrade := fun _ =>
      { status_code := 422, errors := [("price", ["history missing"])]
        trade := none }
    tryCreateCash := fun _ _ => okResp }

/-- Opening balance row of the C4 witness. -/
def obRow : DataRow := { emptyRow with
  transaction_type := "OPENING_BALANCE", unique_identifier := "OB2"
  transaction_date := "2020-01-01", symbol := "FOO", market := "NYSE"
  quantity := 10, price := "100", amount := 1000 }

/-- Witness for C4 at concrete inputs. -/
theorem opening_balance_fallback_witness :
    ((Legacy.process_trade legacyFailEnv "P1" "GB" (some "CAP") (some "INC")
      obRow).1.filter Legacy.Call.isTrade) =
      [.createTrade (Legacy.mkTradePayload "P1" "GB" obRow),
       .createTrade { Legacy.mkTradePayload "P1" "GB" obRow with
         transaction_type := "BUY" }] ∧
    ((Legacy.process_trade legacyFailEnv "P1" "GB" (some "CAP") (some "INC")
      obRow).2.1.take 2) =
      [Legacy.print_response_status
        (legacyFailEnv.tryCreateTrade (Legacy.mkTradePayload "P1" "GB" obRow)),
       Legacy.print_response_status
        (legacyFailEnv.tryCreateTrade { Legacy.mkTradePayload "P1" "GB" obRow with
          transaction_type := "BUY" })] :=
  opening_balance_fallback legacyFailEnv "P1" "GB" (some "CAP") (some "INC")
    obRow rfl (by decide)
